import Mathlib

/-!
ManualControl: flight-mode resolution core

A shallow embedding of `manualControlTask` and `isGPSAssistedFlightMode`
from `flight/modules/ManualControl/manualcontrol.c`, in the build with the
advanced features compiled in (`PIOS_EXCLUDE_ADVANCED_FEATURES` undefined),
and the properties of one control cycle and of sequences of cycles.

Conventions of the embedding:

* `uint8_t` values (flight modes, roam states, switch positions, flags) are
  natural numbers; the task only copies and compares them, so no arithmetic
  can overflow.
* The enumeration constants and array lengths come from generated UAVObject
  headers that are not part of the sources. They are collected in
  `UAVObjConsts` and every definition takes them as a parameter.
* `cmd.Roll` and `cmd.Pitch` are finite `float` values, embedded as rationals;
  on finite values `fabsf(x) > 0.0f` holds exactly when `x` is not zero.
* The `static bool firstRun` and the stored `FlightStatus` object form the
  state that persists from one cycle to the next.
* `armHandler` and `takeOffLocationHandler` are external; the fields of
  `FlightStatus` they touch are not read by the mode logic and are left out.
-/

namespace ManualControl

/-! ## Generated constants -/

/-- Constants of the generated UAVObject headers used by the task. -/
structure UAVObjConsts where
  FLIGHTSTATUS_FLIGHTMODE_MANUAL : Nat
  FLIGHTSTATUS_FLIGHTMODE_STABILIZED1 : Nat
  FLIGHTSTATUS_FLIGHTMODE_STABILIZED2 : Nat
  FLIGHTSTATUS_FLIGHTMODE_STABILIZED3 : Nat
  FLIGHTSTATUS_FLIGHTMODE_STABILIZED4 : Nat
  FLIGHTSTATUS_FLIGHTMODE_STABILIZED5 : Nat
  FLIGHTSTATUS_FLIGHTMODE_STABILIZED6 : Nat
  FLIGHTSTATUS_FLIGHTMODE_AUTOTUNE : Nat
  FLIGHTSTATUS_FLIGHTMODE_POSITIONHOLD : Nat
  FLIGHTSTATUS_FLIGHTMODE_POSITIONVARIOFPV : Nat
  FLIGHTSTATUS_FLIGHTMODE_POSITIONVARIOLOS : Nat
  FLIGHTSTATUS_FLIGHTMODE_POSITIONVARIONSEW : Nat
  FLIGHTSTATUS_FLIGHTMODE_RETURNTOBASE : Nat
  FLIGHTSTATUS_FLIGHTMODE_LAND : Nat
  FLIGHTSTATUS_FLIGHTMODE_PATHPLANNER : Nat
  FLIGHTSTATUS_FLIGHTMODE_POI : Nat
  FLIGHTSTATUS_FLIGHTMODE_AUTOCRUISE : Nat
  FLIGHTSTATUS_POSITIONROAMSTATE_NONE : Nat
  FLIGHTSTATUS_POSITIONROAMSTATE_STABILIZED : Nat
  FLIGHTSTATUS_POSITIONROAMSTATE_BRAKING : Nat
  FLIGHTSTATUS_POSITIONROAMTHRUSTMODE_MANUAL : Nat
  FLIGHTSTATUS_POSITIONROAMTHRUSTMODE_MIXED : Nat
  STABILIZATIONSETTINGS_FLIGHTMODEGPSASSISTMAP_NONE : Nat
  VTOLPATHFOLLOWERSETTINGS_THRUSTCONTROL_MANUAL : Nat
  FLIGHTMODESETTINGS_FLIGHTMODEPOSITION_NUMELEM : Nat
  STABILIZATIONSETTINGS_FLIGHTMODEGPSASSISTMAP_NUMELEM : Nat

namespace UAVObjConsts

/-- The flight modes named by the `case` labels of the `switch`, in the order
of the source. -/
def flightModes (K : UAVObjConsts) : List Nat :=
  [K.FLIGHTSTATUS_FLIGHTMODE_MANUAL,
   K.FLIGHTSTATUS_FLIGHTMODE_STABILIZED1,
   K.FLIGHTSTATUS_FLIGHTMODE_STABILIZED2,
   K.FLIGHTSTATUS_FLIGHTMODE_STABILIZED3,
   K.FLIGHTSTATUS_FLIGHTMODE_STABILIZED4,
   K.FLIGHTSTATUS_FLIGHTMODE_STABILIZED5,
   K.FLIGHTSTATUS_FLIGHTMODE_STABILIZED6,
   K.FLIGHTSTATUS_FLIGHTMODE_POSITIONHOLD,
   K.FLIGHTSTATUS_FLIGHTMODE_POSITIONVARIOFPV,
   K.FLIGHTSTATUS_FLIGHTMODE_POSITIONVARIOLOS,
   K.FLIGHTSTATUS_FLIGHTMODE_POSITIONVARIONSEW,
   K.FLIGHTSTATUS_FLIGHTMODE_RETURNTOBASE,
   K.FLIGHTSTATUS_FLIGHTMODE_LAND,
   K.FLIGHTSTATUS_FLIGHTMODE_POI,
   K.FLIGHTSTATUS_FLIGHTMODE_AUTOCRUISE,
   K.FLIGHTSTATUS_FLIGHTMODE_PATHPLANNER,
   K.FLIGHTSTATUS_FLIGHTMODE_AUTOTUNE]

/-- The three roam states the task names. -/
def roamStates (K : UAVObjConsts) : List Nat :=
  [K.FLIGHTSTATUS_POSITIONROAMSTATE_NONE,
   K.FLIGHTSTATUS_POSITIONROAMSTATE_STABILIZED,
   K.FLIGHTSTATUS_POSITIONROAMSTATE_BRAKING]

/-- What the C compiler and the header generator guarantee about the
constants: the `case` labels of one `switch` are pairwise different, and so
are the options of the roam-state enumeration. -/
def WellFormed (K : UAVObjConsts) : Prop :=
  K.flightModes.Nodup ∧ K.roamStates.Nodup

instance (K : UAVObjConsts) : Decidable K.WellFormed := by
  unfold WellFormed; exact inferInstance

/-- The six stabilized modes, the `case` labels that share the GPS-roam
branch. -/
def isStabilized (K : UAVObjConsts) (m : Nat) : Prop :=
  m = K.FLIGHTSTATUS_FLIGHTMODE_STABILIZED1 ∨
  m = K.FLIGHTSTATUS_FLIGHTMODE_STABILIZED2 ∨
  m = K.FLIGHTSTATUS_FLIGHTMODE_STABILIZED3 ∨
  m = K.FLIGHTSTATUS_FLIGHTMODE_STABILIZED4 ∨
  m = K.FLIGHTSTATUS_FLIGHTMODE_STABILIZED5 ∨
  m = K.FLIGHTSTATUS_FLIGHTMODE_STABILIZED6

instance (K : UAVObjConsts) (m : Nat) : Decidable (K.isStabilized m) := by
  unfold isStabilized; exact inferInstance

/-- The eight modes whose `case` labels select `handler_PATHFOLLOWER`. -/
def isPathFollowerMode (K : UAVObjConsts) (m : Nat) : Prop :=
  m = K.FLIGHTSTATUS_FLIGHTMODE_POSITIONHOLD ∨
  m = K.FLIGHTSTATUS_FLIGHTMODE_POSITIONVARIOFPV ∨
  m = K.FLIGHTSTATUS_FLIGHTMODE_POSITIONVARIOLOS ∨
  m = K.FLIGHTSTATUS_FLIGHTMODE_POSITIONVARIONSEW ∨
  m = K.FLIGHTSTATUS_FLIGHTMODE_RETURNTOBASE ∨
  m = K.FLIGHTSTATUS_FLIGHTMODE_LAND ∨
  m = K.FLIGHTSTATUS_FLIGHTMODE_POI ∨
  m = K.FLIGHTSTATUS_FLIGHTMODE_AUTOCRUISE

instance (K : UAVObjConsts) (m : Nat) : Decidable (K.isPathFollowerMode m) := by
  unfold isPathFollowerMode; exact inferInstance

end UAVObjConsts

/-- A concrete set of constants, the options of each enumeration numbered
from zero, with six switch positions. Used to evaluate the task on concrete
inputs. -/
def sampleConsts : UAVObjConsts where
  FLIGHTSTATUS_FLIGHTMODE_MANUAL := 0
  FLIGHTSTATUS_FLIGHTMODE_STABILIZED1 := 1
  FLIGHTSTATUS_FLIGHTMODE_STABILIZED2 := 2
  FLIGHTSTATUS_FLIGHTMODE_STABILIZED3 := 3
  FLIGHTSTATUS_FLIGHTMODE_STABILIZED4 := 4
  FLIGHTSTATUS_FLIGHTMODE_STABILIZED5 := 5
  FLIGHTSTATUS_FLIGHTMODE_STABILIZED6 := 6
  FLIGHTSTATUS_FLIGHTMODE_AUTOTUNE := 7
  FLIGHTSTATUS_FLIGHTMODE_POSITIONHOLD := 8
  FLIGHTSTATUS_FLIGHTMODE_POSITIONVARIOFPV := 9
  FLIGHTSTATUS_FLIGHTMODE_POSITIONVARIOLOS := 10
  FLIGHTSTATUS_FLIGHTMODE_POSITIONVARIONSEW := 11
  FLIGHTSTATUS_FLIGHTMODE_RETURNTOBASE := 12
  FLIGHTSTATUS_FLIGHTMODE_LAND := 13
  FLIGHTSTATUS_FLIGHTMODE_PATHPLANNER := 14
  FLIGHTSTATUS_FLIGHTMODE_POI := 15
  FLIGHTSTATUS_FLIGHTMODE_AUTOCRUISE := 16
  FLIGHTSTATUS_POSITIONROAMSTATE_NONE := 0
  FLIGHTSTATUS_POSITIONROAMSTATE_STABILIZED := 1
  FLIGHTSTATUS_POSITIONROAMSTATE_BRAKING := 2
  FLIGHTSTATUS_POSITIONROAMTHRUSTMODE_MANUAL := 0
  FLIGHTSTATUS_POSITIONROAMTHRUSTMODE_MIXED := 1
  STABILIZATIONSETTINGS_FLIGHTMODEGPSASSISTMAP_NONE := 0
  VTOLPATHFOLLOWERSETTINGS_THRUSTCONTROL_MANUAL := 0
  FLIGHTMODESETTINGS_FLIGHTMODEPOSITION_NUMELEM := 6
  STABILIZATIONSETTINGS_FLIGHTMODEGPSASSISTMAP_NUMELEM := 6

/-! ## Data model -/

/-- The `ControlChain` field of `FlightStatus`. -/
structure FlightStatusControlChainData where
  Stabilization : Bool
  PathFollower : Bool
  PathPlanner : Bool
  deriving DecidableEq, Repr

/-- The control laws a `controlHandler` can point to. -/
inductive HandlerFn where
  | manualHandler
  | stabilizedHandler
  | pathFollowerHandler
  | pathPlannerHandler
  deriving DecidableEq, Repr

/-- A `controlHandler`: a control chain and a law, `none` for `NULL`. -/
structure controlHandler where
  controlChain : FlightStatusControlChainData
  handler : Option HandlerFn
  deriving DecidableEq, Repr

def handler_MANUAL : controlHandler :=
  { controlChain := { Stabilization := false, PathFollower := false, PathPlanner := false },
    handler := some HandlerFn.manualHandler }

def handler_STABILIZED : controlHandler :=
  { controlChain := { Stabilization := true, PathFollower := false, PathPlanner := false },
    handler := some HandlerFn.stabilizedHandler }

def handler_AUTOTUNE : controlHandler :=
  { controlChain := { Stabilization := false, PathFollower := false, PathPlanner := false },
    handler := none }

def handler_PATHFOLLOWER : controlHandler :=
  { controlChain := { Stabilization := true, PathFollower := true, PathPlanner := false },
    handler := some HandlerFn.pathFollowerHandler }

def handler_PATHPLANNER : controlHandler :=
  { controlChain := { Stabilization := true, PathFollower := true, PathPlanner := true },
    handler := some HandlerFn.pathPlannerHandler }

/-- The fields of `FlightStatusData` the task reads or writes. -/
structure FlightStatusData where
  FlightMode : Nat
  FlightModeGPSAssist : Nat
  PositionRoamState : Nat
  PositionRoamThrustMode : Nat
  ControlChain : FlightStatusControlChainData
  deriving DecidableEq, Repr

/-- The fields of `ManualControlCommandData` the task reads. -/
structure ManualControlCommandData where
  FlightModeSwitchPosition : Nat
  Roll : ℚ
  Pitch : ℚ

/-- The objects read from the UAVObject store in one cycle: the command, the
`FlightModePosition` array of the flight-mode settings, the
`FlightModeGPSAssistMap` array of the stabilization settings and the
`ThrustControl` field of the VTOL path-follower settings. -/
structure CycleInputs (K : UAVObjConsts) where
  cmd : ManualControlCommandData
  FlightModePosition : Fin K.FLIGHTMODESETTINGS_FLIGHTMODEPOSITION_NUMELEM → Nat
  FlightModeGPSAssistMap : Fin K.STABILIZATIONSETTINGS_FLIGHTMODEGPSASSISTMAP_NUMELEM → Nat
  ThrustControl : Nat

/-- What persists between two cycles: the stored `FlightStatus` and the
function-local `static bool firstRun`. -/
structure ModuleState where
  flightStatus : FlightStatusData
  firstRun : Bool
  deriving DecidableEq, Repr

/-! ## The task -/

/-- The C function `fabsf` on finite values. -/
def fabsf (x : ℚ) : ℚ := |x|

/-- The function `isGPSAssistedFlightMode`. -/
def isGPSAssistedFlightMode (K : UAVObjConsts)
    (FlightModeGPSAssistMap : Fin K.STABILIZATIONSETTINGS_FLIGHTMODEGPSASSISTMAP_NUMELEM → Nat)
    (position : Nat) : Nat :=
  let isGPSAssistedFlag := K.STABILIZATIONSETTINGS_FLIGHTMODEGPSASSISTMAP_NONE
  if h : position < K.STABILIZATIONSETTINGS_FLIGHTMODEGPSASSISTMAP_NUMELEM then
    FlightModeGPSAssistMap ⟨position, h⟩
  else
    isGPSAssistedFlag

/-- The local variables of `manualControlTask` when the `switch` is left. -/
structure Selection where
  newMode : Nat
  newFlightModeGPSAssist : Nat
  newPositionRoamState : Nat
  newPositionRoamThrustMode : Nat
  handler : controlHandler
  deriving DecidableEq, Repr

/-- The mode read from the switch position: the `if (position < ...NUMELEM)`
in front of the `switch`. -/
def resolveMode (K : UAVObjConsts) (flightStatus : FlightStatusData) (inp : CycleInputs K) : Nat :=
  let position := inp.cmd.FlightModeSwitchPosition
  if h : position < K.FLIGHTMODESETTINGS_FLIGHTMODEPOSITION_NUMELEM then
    inp.FlightModePosition ⟨position, h⟩
  else
    flightStatus.FlightMode

/-- The first part of `manualControlTask`: from the declaration of `position`
to the end of the `switch`. The `case` labels are tested in source order; a
value that matches none keeps the initial `handler_MANUAL`. -/
def selectHandler (K : UAVObjConsts) (flightStatus : FlightStatusData) (inp : CycleInputs K) :
    Selection :=
  let position := inp.cmd.FlightModeSwitchPosition
  let newMode := resolveMode K flightStatus inp
  let init : Selection :=
    { newMode := newMode
      newFlightModeGPSAssist := flightStatus.FlightModeGPSAssist
      newPositionRoamState := flightStatus.PositionRoamState
      newPositionRoamThrustMode := flightStatus.PositionRoamThrustMode
      handler := handler_MANUAL }
  if newMode = K.FLIGHTSTATUS_FLIGHTMODE_MANUAL then
    { init with handler := handler_MANUAL }
  else if K.isStabilized newMode then
    let newFlightModeGPSAssist := isGPSAssistedFlightMode K inp.FlightModeGPSAssistMap position
    if newFlightModeGPSAssist ≠ 0 then
      if fabsf inp.cmd.Roll > 0 ∨ fabsf inp.cmd.Pitch > 0 then
        { init with
          handler := handler_STABILIZED
          newFlightModeGPSAssist := newFlightModeGPSAssist
          newPositionRoamState := K.FLIGHTSTATUS_POSITIONROAMSTATE_STABILIZED
          newPositionRoamThrustMode :=
            if inp.ThrustControl = K.VTOLPATHFOLLOWERSETTINGS_THRUSTCONTROL_MANUAL then
              K.FLIGHTSTATUS_POSITIONROAMTHRUSTMODE_MANUAL
            else
              K.FLIGHTSTATUS_POSITIONROAMTHRUSTMODE_MIXED }
      else
        { init with
          handler := handler_PATHFOLLOWER
          newFlightModeGPSAssist := newFlightModeGPSAssist
          newPositionRoamState :=
            if flightStatus.PositionRoamState = K.FLIGHTSTATUS_POSITIONROAMSTATE_NONE ∨
                flightStatus.PositionRoamState = K.FLIGHTSTATUS_POSITIONROAMSTATE_STABILIZED then
              K.FLIGHTSTATUS_POSITIONROAMSTATE_BRAKING
            else
              flightStatus.PositionRoamState }
    else
      { init with
        handler := handler_STABILIZED
        newFlightModeGPSAssist := newFlightModeGPSAssist }
  else if K.isPathFollowerMode newMode then
    { init with handler := handler_PATHFOLLOWER }
  else if newMode = K.FLIGHTSTATUS_FLIGHTMODE_PATHPLANNER then
    { init with handler := handler_PATHPLANNER }
  else if newMode = K.FLIGHTSTATUS_FLIGHTMODE_AUTOTUNE then
    { init with handler := handler_AUTOTUNE }
  else
    init

/-- What one run of `manualControlTask` leaves behind: the state for the next
cycle, the value of `newinit`, and the call of the control law, if any, with
its argument. -/
structure TaskResult where
  state : ModuleState
  newinit : Bool
  invoked : Option (HandlerFn × Bool)
  deriving DecidableEq, Repr

/-- The function `manualControlTask`: `selectHandler`, then the commit of the
flight status and the call of the handler. -/
def manualControlTask (K : UAVObjConsts) (s : ModuleState) (inp : CycleInputs K) : TaskResult :=
  let flightStatus := s.flightStatus
  let sel := selectHandler K flightStatus inp
  if flightStatus.FlightMode ≠ sel.newMode ∨ s.firstRun = true ∨
      sel.newPositionRoamState ≠ flightStatus.PositionRoamState then
    { state :=
        { firstRun := false
          flightStatus :=
            { ControlChain := sel.handler.controlChain
              FlightMode := sel.newMode
              FlightModeGPSAssist := sel.newFlightModeGPSAssist
              PositionRoamState := sel.newPositionRoamState
              PositionRoamThrustMode := sel.newPositionRoamThrustMode } }
      newinit := true
      invoked := sel.handler.handler.map (fun f => (f, true)) }
  else
    { state := s
      newinit := false
      invoked := sel.handler.handler.map (fun f => (f, false)) }

/-- The state after a sequence of cycles, one per element of `inps`. -/
def runCycles (K : UAVObjConsts) (s : ModuleState) (inps : List (CycleInputs K)) : ModuleState :=
  inps.foldl (fun st inp => (manualControlTask K st inp).state) s

/-- Module start: the stored status is whatever `FlightStatusInitialize`
left, and `firstRun` is `true`. -/
def startup (fs : FlightStatusData) : ModuleState :=
  { flightStatus := fs, firstRun := true }

/-- The values of the local variables in front of the `switch`. -/
def initSelection (K : UAVObjConsts) (flightStatus : FlightStatusData) (inp : CycleInputs K) :
    Selection :=
  { newMode := resolveMode K flightStatus inp
    newFlightModeGPSAssist := flightStatus.FlightModeGPSAssist
    newPositionRoamState := flightStatus.PositionRoamState
    newPositionRoamThrustMode := flightStatus.PositionRoamThrustMode
    handler := handler_MANUAL }

/-- The `case` labels of the stabilized branch, as a list. -/
def stabilizedModes (K : UAVObjConsts) : List Nat :=
  [K.FLIGHTSTATUS_FLIGHTMODE_STABILIZED1,
   K.FLIGHTSTATUS_FLIGHTMODE_STABILIZED2,
   K.FLIGHTSTATUS_FLIGHTMODE_STABILIZED3,
   K.FLIGHTSTATUS_FLIGHTMODE_STABILIZED4,
   K.FLIGHTSTATUS_FLIGHTMODE_STABILIZED5,
   K.FLIGHTSTATUS_FLIGHTMODE_STABILIZED6]

/-- The `case` labels of the path-follower branch, as a list. -/
def pathFollowerModes (K : UAVObjConsts) : List Nat :=
  [K.FLIGHTSTATUS_FLIGHTMODE_POSITIONHOLD,
   K.FLIGHTSTATUS_FLIGHTMODE_POSITIONVARIOFPV,
   K.FLIGHTSTATUS_FLIGHTMODE_POSITIONVARIOLOS,
   K.FLIGHTSTATUS_FLIGHTMODE_POSITIONVARIONSEW,
   K.FLIGHTSTATUS_FLIGHTMODE_RETURNTOBASE,
   K.FLIGHTSTATUS_FLIGHTMODE_LAND,
   K.FLIGHTSTATUS_FLIGHTMODE_POI,
   K.FLIGHTSTATUS_FLIGHTMODE_AUTOCRUISE]

/-! ## The dispatch table of the specification -/

/-- The control-chain dispatch table as the specification words it (section
4.2): one descriptor per mode category, in the order of its table, and the
Manual descriptor for a mode that matches no category. It is compared with
what `selectHandler` selects. -/
def specDispatchTable (K : UAVObjConsts) (mode : Nat) : controlHandler :=
  if mode = K.FLIGHTSTATUS_FLIGHTMODE_MANUAL then handler_MANUAL
  else if K.isStabilized mode then handler_STABILIZED
  else if mode = K.FLIGHTSTATUS_FLIGHTMODE_AUTOTUNE then handler_AUTOTUNE
  else if K.isPathFollowerMode mode then handler_PATHFOLLOWER
  else if mode = K.FLIGHTSTATUS_FLIGHTMODE_PATHPLANNER then handler_PATHPLANNER
  else handler_MANUAL

/-- The GPS-roam override of the stabilized branch is in force: stabilized
mode, GPS-assist flag set, both sticks centred. -/
def roamOverride (K : UAVObjConsts) (flightStatus : FlightStatusData) (inp : CycleInputs K) :
    Prop :=
  K.isStabilized (resolveMode K flightStatus inp) ∧
  isGPSAssistedFlightMode K inp.FlightModeGPSAssistMap inp.cmd.FlightModeSwitchPosition ≠ 0 ∧
  inp.cmd.Roll = 0 ∧ inp.cmd.Pitch = 0

instance (K : UAVObjConsts) (flightStatus : FlightStatusData) (inp : CycleInputs K) :
    Decidable (roamOverride K flightStatus inp) := by
  unfold roamOverride; exact inferInstance

/-- The property of the stored status that every cycle establishes: the
control chain is the table entry of the stored mode, or the mode is stabilized
and the chain is the path-follower one left by the GPS-roam override, with the
GPS-assist flag set and the roam state neither None nor Stabilized. -/
def ChainInvariant (K : UAVObjConsts) (fs : FlightStatusData) : Prop :=
  fs.ControlChain = (specDispatchTable K fs.FlightMode).controlChain ∨
  (K.isStabilized fs.FlightMode ∧
    fs.ControlChain = { Stabilization := true, PathFollower := true, PathPlanner := false } ∧
    fs.FlightModeGPSAssist ≠ 0 ∧
    fs.PositionRoamState ≠ K.FLIGHTSTATUS_POSITIONROAMSTATE_NONE ∧
    fs.PositionRoamState ≠ K.FLIGHTSTATUS_POSITIONROAMSTATE_STABILIZED)

/-! ## Derived notions used by the cycle properties -/

/-- The full status computed in a cycle: what the commit branch of
`manualControlTask` would store. -/
def computedStatus (sel : Selection) : FlightStatusData :=
  { ControlChain := sel.handler.controlChain
    FlightMode := sel.newMode
    FlightModeGPSAssist := sel.newFlightModeGPSAssist
    PositionRoamState := sel.newPositionRoamState
    PositionRoamThrustMode := sel.newPositionRoamThrustMode }

/-- A control chain is layered when the path planner is enabled only together
with the path follower, and the path follower only together with the
stabilization. -/
def Layered (c : FlightStatusControlChainData) : Prop :=
  (c.PathPlanner = true → c.PathFollower = true) ∧
  (c.PathFollower = true → c.Stabilization = true)

instance (c : FlightStatusControlChainData) : Decidable (Layered c) := by
  unfold Layered; exact inferInstance

/-- The inputs of a cycle with the `ThrustControl` setting replaced. -/
def withThrustControl (K : UAVObjConsts) (inp : CycleInputs K) (thrustControl : Nat) :
    CycleInputs K :=
  { cmd := inp.cmd
    FlightModePosition := inp.FlightModePosition
    FlightModeGPSAssistMap := inp.FlightModeGPSAssistMap
    ThrustControl := thrustControl }

/-! ## Sample inputs -/

/-- A command with the given switch position and stick deflections. -/
def mkCmd (position : Nat) (roll pitch : ℚ) : ManualControlCommandData :=
  { FlightModeSwitchPosition := position, Roll := roll, Pitch := pitch }

/-- Sample inputs over `sampleConsts`: switch position `i` maps to the `i`-th
element of `modes`, and its GPS-assist flag is the `i`-th element of `assists`
(zero where a list is too short). -/
def sampleInputs (modes assists : List Nat) (thrustControl position : Nat) (roll pitch : ℚ) :
    CycleInputs sampleConsts :=
  { cmd := mkCmd position roll pitch
    FlightModePosition := fun i => modes.getD i.val 0
    FlightModeGPSAssistMap := fun i => assists.getD i.val 0
    ThrustControl := thrustControl }

/-- A stored status with the given mode and roam state, the other numeric
fields zero and an empty control chain. -/
def sampleStatus (mode roamState : Nat) : FlightStatusData :=
  { FlightMode := mode
    FlightModeGPSAssist := 0
    PositionRoamState := roamState
    PositionRoamThrustMode := 0
    ControlChain := { Stabilization := false, PathFollower := false, PathPlanner := false } }

/-! ## The `switch`, one category at a time -/

theorem selectHandler_newMode (K : UAVObjConsts) (fs : FlightStatusData) (inp : CycleInputs K) :
    (selectHandler K fs inp).newMode = resolveMode K fs inp := by
  unfold selectHandler
  simp only []
  split_ifs <;> rfl

theorem selectHandler_manual (K : UAVObjConsts) (fs : FlightStatusData) (inp : CycleInputs K)
    (h : resolveMode K fs inp = K.FLIGHTSTATUS_FLIGHTMODE_MANUAL) :
    selectHandler K fs inp = initSelection K fs inp := by
  unfold selectHandler initSelection
  simp only [h, if_true]

theorem isStabilized_iff_mem (K : UAVObjConsts) (m : Nat) :
    K.isStabilized m ↔ m ∈ stabilizedModes K := by
  simp [UAVObjConsts.isStabilized, stabilizedModes]

theorem isPathFollowerMode_iff_mem (K : UAVObjConsts) (m : Nat) :
    K.isPathFollowerMode m ↔ m ∈ pathFollowerModes K := by
  simp [UAVObjConsts.isPathFollowerMode, pathFollowerModes]

theorem flightModes_eq (K : UAVObjConsts) :
    K.flightModes = K.FLIGHTSTATUS_FLIGHTMODE_MANUAL ::
      (stabilizedModes K ++ (pathFollowerModes K ++
        [K.FLIGHTSTATUS_FLIGHTMODE_PATHPLANNER, K.FLIGHTSTATUS_FLIGHTMODE_AUTOTUNE])) := rfl

/-- The pairwise facts about the `case` labels that the `switch` relies on. -/
theorem caseLabels_distinct (K : UAVObjConsts) (hK : K.WellFormed) :
    (∀ m, K.isStabilized m → m ≠ K.FLIGHTSTATUS_FLIGHTMODE_MANUAL) ∧
    (∀ m, K.isPathFollowerMode m → m ≠ K.FLIGHTSTATUS_FLIGHTMODE_MANUAL) ∧
    K.FLIGHTSTATUS_FLIGHTMODE_PATHPLANNER ≠ K.FLIGHTSTATUS_FLIGHTMODE_MANUAL ∧
    K.FLIGHTSTATUS_FLIGHTMODE_AUTOTUNE ≠ K.FLIGHTSTATUS_FLIGHTMODE_MANUAL ∧
    (∀ m, K.isPathFollowerMode m → ¬ K.isStabilized m) ∧
    ¬ K.isStabilized K.FLIGHTSTATUS_FLIGHTMODE_PATHPLANNER ∧
    ¬ K.isStabilized K.FLIGHTSTATUS_FLIGHTMODE_AUTOTUNE ∧
    ¬ K.isPathFollowerMode K.FLIGHTSTATUS_FLIGHTMODE_PATHPLANNER ∧
    ¬ K.isPathFollowerMode K.FLIGHTSTATUS_FLIGHTMODE_AUTOTUNE ∧
    K.FLIGHTSTATUS_FLIGHTMODE_AUTOTUNE ≠ K.FLIGHTSTATUS_FLIGHTMODE_PATHPLANNER := by
  have h := hK.1
  rw [flightModes_eq, List.nodup_cons, List.nodup_append, List.nodup_append] at h
  obtain ⟨hman, -, ⟨-, hpa, hdpf⟩, hds⟩ := h
  simp only [List.mem_append, not_or, List.mem_cons, List.mem_singleton, List.not_mem_nil,
    or_false] at hman
  have hds2 := List.disjoint_left.mp hds
  have hdpf2 := List.disjoint_left.mp hdpf
  simp only [List.mem_append, not_or, List.mem_cons, List.mem_singleton, List.not_mem_nil,
    or_false] at hds2 hdpf2
  simp only [List.nodup_cons, List.mem_singleton, List.not_mem_nil, not_false_eq_true,
    List.nodup_nil, and_true] at hpa
  refine ⟨?_, ?_, ?_, ?_, ?_, ?_, ?_, ?_, ?_, ?_⟩
  · intro m hm heq
    exact hman.1 (heq ▸ (isStabilized_iff_mem K m).mp hm)
  · intro m hm heq
    exact hman.2.1 (heq ▸ (isPathFollowerMode_iff_mem K m).mp hm)
  · exact fun heq => hman.2.2.1 heq.symm
  · exact fun heq => hman.2.2.2 heq.symm
  · intro m hm hs
    exact (hds2 ((isStabilized_iff_mem K m).mp hs)).1 ((isPathFollowerMode_iff_mem K m).mp hm)
  · intro hs
    exact (hds2 ((isStabilized_iff_mem K _).mp hs)).2.1 rfl
  · intro hs
    exact (hds2 ((isStabilized_iff_mem K _).mp hs)).2.2 rfl
  · intro hp
    exact (hdpf2 ((isPathFollowerMode_iff_mem K _).mp hp)).1 rfl
  · intro hp
    exact (hdpf2 ((isPathFollowerMode_iff_mem K _).mp hp)).2 rfl
  · exact fun heq => hpa heq.symm

/-- The pairwise facts about the roam states. -/
theorem roamStates_distinct (K : UAVObjConsts) (hK : K.WellFormed) :
    K.FLIGHTSTATUS_POSITIONROAMSTATE_BRAKING ≠ K.FLIGHTSTATUS_POSITIONROAMSTATE_NONE ∧
    K.FLIGHTSTATUS_POSITIONROAMSTATE_BRAKING ≠ K.FLIGHTSTATUS_POSITIONROAMSTATE_STABILIZED ∧
    K.FLIGHTSTATUS_POSITIONROAMSTATE_STABILIZED ≠ K.FLIGHTSTATUS_POSITIONROAMSTATE_NONE := by
  have h := hK.2
  simp only [UAVObjConsts.roamStates, List.nodup_cons, List.mem_cons, List.mem_singleton,
    List.not_mem_nil, or_false, not_or, not_false_eq_true, List.nodup_nil, and_true] at h
  exact ⟨fun e => h.1.2 e.symm, fun e => h.2 e.symm, fun e => h.1.1 e.symm⟩

theorem selectHandler_stabilized (K : UAVObjConsts) (hK : K.WellFormed) (fs : FlightStatusData)
    (inp : CycleInputs K) (h : K.isStabilized (resolveMode K fs inp)) :
    selectHandler K fs inp =
      if isGPSAssistedFlightMode K inp.FlightModeGPSAssistMap inp.cmd.FlightModeSwitchPosition ≠ 0
      then
        if fabsf inp.cmd.Roll > 0 ∨ fabsf inp.cmd.Pitch > 0 then
          { initSelection K fs inp with
            handler := handler_STABILIZED
            newFlightModeGPSAssist :=
              isGPSAssistedFlightMode K inp.FlightModeGPSAssistMap inp.cmd.FlightModeSwitchPosition
            newPositionRoamState := K.FLIGHTSTATUS_POSITIONROAMSTATE_STABILIZED
            newPositionRoamThrustMode :=
              if inp.ThrustControl = K.VTOLPATHFOLLOWERSETTINGS_THRUSTCONTROL_MANUAL then
                K.FLIGHTSTATUS_POSITIONROAMTHRUSTMODE_MANUAL
              else
                K.FLIGHTSTATUS_POSITIONROAMTHRUSTMODE_MIXED }
        else
          { initSelection K fs inp with
            handler := handler_PATHFOLLOWER
            newFlightModeGPSAssist :=
              isGPSAssistedFlightMode K inp.FlightModeGPSAssistMap inp.cmd.FlightModeSwitchPosition
            newPositionRoamState :=
              if fs.PositionRoamState = K.FLIGHTSTATUS_POSITIONROAMSTATE_NONE ∨
                  fs.PositionRoamState = K.FLIGHTSTATUS_POSITIONROAMSTATE_STABILIZED then
                K.FLIGHTSTATUS_POSITIONROAMSTATE_BRAKING
              else
                fs.PositionRoamState }
      else
        { initSelection K fs inp with
          handler := handler_STABILIZED
          newFlightModeGPSAssist :=
            isGPSAssistedFlightMode K inp.FlightModeGPSAssistMap inp.cmd.FlightModeSwitchPosition } := by
  have hm := (caseLabels_distinct K hK).1 _ h
  unfold selectHandler initSelection
  simp only [hm, h, if_true, if_false]

theorem selectHandler_pathFollower (K : UAVObjConsts) (hK : K.WellFormed) (fs : FlightStatusData)
    (inp : CycleInputs K) (h : K.isPathFollowerMode (resolveMode K fs inp)) :
    selectHandler K fs inp = { initSelection K fs inp with handler := handler_PATHFOLLOWER } := by
  have hm := (caseLabels_distinct K hK).2.1 _ h
  have hs := (caseLabels_distinct K hK).2.2.2.2.1 _ h
  unfold selectHandler initSelection
  simp only [hm, hs, h, if_true, if_false]

theorem selectHandler_pathPlanner (K : UAVObjConsts) (hK : K.WellFormed) (fs : FlightStatusData)
    (inp : CycleInputs K) (h : resolveMode K fs inp = K.FLIGHTSTATUS_FLIGHTMODE_PATHPLANNER) :
    selectHandler K fs inp = { initSelection K fs inp with handler := handler_PATHPLANNER } := by
  obtain ⟨-, -, hm, -, -, hs, -, hp, -, -⟩ := caseLabels_distinct K hK
  rw [← h] at hm hs hp
  unfold selectHandler initSelection
  simp only [hm, hs, hp, if_false]
  simp only [h, if_true]

theorem selectHandler_autotune (K : UAVObjConsts) (hK : K.WellFormed) (fs : FlightStatusData)
    (inp : CycleInputs K) (h : resolveMode K fs inp = K.FLIGHTSTATUS_FLIGHTMODE_AUTOTUNE) :
    selectHandler K fs inp = { initSelection K fs inp with handler := handler_AUTOTUNE } := by
  obtain ⟨-, -, -, hm, -, -, hs, -, hp, hpp⟩ := caseLabels_distinct K hK
  rw [← h] at hm hs hp hpp
  unfold selectHandler initSelection
  simp only [hm, hs, hp, hpp, if_false]
  simp only [h, if_true]

theorem selectHandler_unmapped (K : UAVObjConsts) (fs : FlightStatusData)
    (inp : CycleInputs K) (h : resolveMode K fs inp ∉ K.flightModes) :
    selectHandler K fs inp = initSelection K fs inp := by
  simp only [UAVObjConsts.flightModes, List.mem_cons, List.mem_singleton, List.not_mem_nil,
    not_or, or_false] at h
  have hs : ¬ K.isStabilized (resolveMode K fs inp) := by
    unfold UAVObjConsts.isStabilized
    tauto
  have hp : ¬ K.isPathFollowerMode (resolveMode K fs inp) := by
    unfold UAVObjConsts.isPathFollowerMode
    tauto
  unfold selectHandler initSelection
  simp only [h.1, hs, hp, h.2.2.2.2.2.2.2.2.2.2.2.2.2.2.2.1, h.2.2.2.2.2.2.2.2.2.2.2.2.2.2.2.2,
    if_false]

/-! ## Stick test -/

theorem fabsf_pos_iff (x : ℚ) : fabsf x > 0 ↔ x ≠ 0 := by
  unfold fabsf
  exact abs_pos

theorem sticks_deflected_iff (cmd : ManualControlCommandData) :
    (fabsf cmd.Roll > 0 ∨ fabsf cmd.Pitch > 0) ↔ (cmd.Roll ≠ 0 ∨ cmd.Pitch ≠ 0) := by
  rw [fabsf_pos_iff, fabsf_pos_iff]

theorem selectHandler_stabilized_plain (K : UAVObjConsts) (hK : K.WellFormed)
    (fs : FlightStatusData) (inp : CycleInputs K)
    (h : K.isStabilized (resolveMode K fs inp)) (hno : ¬ roamOverride K fs inp) :
    (selectHandler K fs inp).handler = handler_STABILIZED := by
  rw [selectHandler_stabilized K hK fs inp h]
  by_cases hg :
      isGPSAssistedFlightMode K inp.FlightModeGPSAssistMap inp.cmd.FlightModeSwitchPosition ≠ 0
  · have hd : fabsf inp.cmd.Roll > 0 ∨ fabsf inp.cmd.Pitch > 0 := by
      rw [sticks_deflected_iff]
      by_contra hc
      push_neg at hc
      exact hno ⟨h, hg, hc.1, hc.2⟩
    rw [if_pos hg, if_pos hd]
  · rw [if_neg hg]

/-! ## Mode resolver -/

/-- C1. The mode resolved in a cycle is the entry of the `FlightModePosition`
table at the switch position when the position is below the table length, and
the `FlightMode` of the stored status when it is not. -/
theorem resolved_mode_bounds_checked (K : UAVObjConsts) (fs : FlightStatusData)
    (inp : CycleInputs K) :
    (∀ h : inp.cmd.FlightModeSwitchPosition < K.FLIGHTMODESETTINGS_FLIGHTMODEPOSITION_NUMELEM,
      (selectHandler K fs inp).newMode =
        inp.FlightModePosition ⟨inp.cmd.FlightModeSwitchPosition, h⟩) ∧
    (K.FLIGHTMODESETTINGS_FLIGHTMODEPOSITION_NUMELEM ≤ inp.cmd.FlightModeSwitchPosition →
      (selectHandler K fs inp).newMode = fs.FlightMode) := by
  rw [selectHandler_newMode]
  unfold resolveMode
  constructor
  · intro h
    simp only [h, dif_pos]
  · intro h
    simp only [Nat.not_lt.mpr h, dif_neg, not_false_eq_true]

/-- Witness for C1: position 2 of the table `[0, 8, 14, 3]` resolves to mode
14; position 6, beyond the six table entries, keeps the stored mode 8. -/
theorem resolved_mode_bounds_checked_witness :
    (selectHandler sampleConsts (sampleStatus 8 0)
        (sampleInputs [0, 8, 14, 3] [] 0 2 0 0)).newMode = 14 ∧
    (selectHandler sampleConsts (sampleStatus 8 0)
        (sampleInputs [0, 8, 14, 3] [] 0 6 0 0)).newMode = 8 :=
  ⟨(resolved_mode_bounds_checked sampleConsts (sampleStatus 8 0)
      (sampleInputs [0, 8, 14, 3] [] 0 2 0 0)).1 (by decide),
   (resolved_mode_bounds_checked sampleConsts (sampleStatus 8 0)
      (sampleInputs [0, 8, 14, 3] [] 0 6 0 0)).2 (by decide)⟩

/-! ## Dispatch -/

/-- C2. When the GPS-roam override does not apply (the resolved mode is not
stabilized, or the GPS-assist flag is clear, or a stick is deflected), the
selected handler is the table entry of the category of the resolved mode:
Manual gives chain (false, false, false) and the manual law; Stabilized1..6
give (true, false, false) and the stabilized law; Autotune gives
(false, false, false) and no law; the eight path-follower modes give
(true, true, false) and the path-follower law; PathPlanner gives
(true, true, true) and the path-planner law. -/
theorem dispatch_table_entry (K : UAVObjConsts) (hK : K.WellFormed) (fs : FlightStatusData)
    (inp : CycleInputs K)
    (hno : ¬ (K.isStabilized (resolveMode K fs inp) ∧
      isGPSAssistedFlightMode K inp.FlightModeGPSAssistMap inp.cmd.FlightModeSwitchPosition ≠ 0 ∧
      inp.cmd.Roll = 0 ∧ inp.cmd.Pitch = 0)) :
    (resolveMode K fs inp = K.FLIGHTSTATUS_FLIGHTMODE_MANUAL →
      (selectHandler K fs inp).handler =
        { controlChain := { Stabilization := false, PathFollower := false, PathPlanner := false },
          handler := some HandlerFn.manualHandler }) ∧
    (K.isStabilized (resolveMode K fs inp) →
      (selectHandler K fs inp).handler =
        { controlChain := { Stabilization := true, PathFollower := false, PathPlanner := false },
          handler := some HandlerFn.stabilizedHandler }) ∧
    (resolveMode K fs inp = K.FLIGHTSTATUS_FLIGHTMODE_AUTOTUNE →
      (selectHandler K fs inp).handler =
        { controlChain := { Stabilization := false, PathFollower := false, PathPlanner := false },
          handler := none }) ∧
    (K.isPathFollowerMode (resolveMode K fs inp) →
      (selectHandler K fs inp).handler =
        { controlChain := { Stabilization := true, PathFollower := true, PathPlanner := false },
          handler := some HandlerFn.pathFollowerHandler }) ∧
    (resolveMode K fs inp = K.FLIGHTSTATUS_FLIGHTMODE_PATHPLANNER →
      (selectHandler K fs inp).handler =
        { controlChain := { Stabilization := true, PathFollower := true, PathPlanner := true },
          handler := some HandlerFn.pathPlannerHandler }) := by
  refine ⟨?_, ?_, ?_, ?_, ?_⟩
  · intro h
    rw [selectHandler_manual K fs inp h]
    rfl
  · intro h
    rw [selectHandler_stabilized_plain K hK fs inp h hno]
    rfl
  · intro h
    rw [selectHandler_autotune K hK fs inp h]
    rfl
  · intro h
    rw [selectHandler_pathFollower K hK fs inp h]
    rfl
  · intro h
    rw [selectHandler_pathPlanner K hK fs inp h]
    rfl

/-- Witness for C2: one cycle per category, each switch position of the table
`[0, 3, 7, 12, 14]` in turn, with the GPS-assist flag set and the roll stick
deflected at the stabilized position. -/
theorem dispatch_table_entry_witness :
    (selectHandler sampleConsts (sampleStatus 0 0)
        (sampleInputs [0, 3, 7, 12, 14] [0, 1] 0 0 0 0)).handler = handler_MANUAL ∧
    (selectHandler sampleConsts (sampleStatus 0 0)
        (sampleInputs [0, 3, 7, 12, 14] [0, 1] 0 1 1 0)).handler = handler_STABILIZED ∧
    (selectHandler sampleConsts (sampleStatus 0 0)
        (sampleInputs [0, 3, 7, 12, 14] [0, 1] 0 2 0 0)).handler = handler_AUTOTUNE ∧
    (selectHandler sampleConsts (sampleStatus 0 0)
        (sampleInputs [0, 3, 7, 12, 14] [0, 1] 0 3 0 0)).handler = handler_PATHFOLLOWER ∧
    (selectHandler sampleConsts (sampleStatus 0 0)
        (sampleInputs [0, 3, 7, 12, 14] [0, 1] 0 4 0 0)).handler = handler_PATHPLANNER :=
  ⟨(dispatch_table_entry sampleConsts (by decide) (sampleStatus 0 0)
      (sampleInputs [0, 3, 7, 12, 14] [0, 1] 0 0 0 0) (by decide)).1 (by decide),
   (dispatch_table_entry sampleConsts (by decide) (sampleStatus 0 0)
      (sampleInputs [0, 3, 7, 12, 14] [0, 1] 0 1 1 0) (by decide)).2.1 (by decide),
   (dispatch_table_entry sampleConsts (by decide) (sampleStatus 0 0)
      (sampleInputs [0, 3, 7, 12, 14] [0, 1] 0 2 0 0) (by decide)).2.2.1 (by decide),
   (dispatch_table_entry sampleConsts (by decide) (sampleStatus 0 0)
      (sampleInputs [0, 3, 7, 12, 14] [0, 1] 0 3 0 0) (by decide)).2.2.2.1 (by decide),
   (dispatch_table_entry sampleConsts (by decide) (sampleStatus 0 0)
      (sampleInputs [0, 3, 7, 12, 14] [0, 1] 0 4 0 0) (by decide)).2.2.2.2 (by decide)⟩

/-! ## Reconciler -/

/-- C3. In every cycle `newinit` (the flag handed to the control law) is true
exactly when the resolved mode differs from the stored mode, or the computed
roam state differs from the stored one, or `firstRun` is set; so a first run
always gives true. When it is true the stored status after the cycle holds the
computed mode, GPS-assist flag, roam state and thrust mode and the control
chain of the selected handler. The law of the selected handler is called
exactly when it is not `NULL`, with `newinit` as its argument. -/
theorem reconciler_commit_and_call (K : UAVObjConsts) (s : ModuleState) (inp : CycleInputs K) :
    ((manualControlTask K s inp).newinit = true ↔
      ((selectHandler K s.flightStatus inp).newMode ≠ s.flightStatus.FlightMode ∨
       (selectHandler K s.flightStatus inp).newPositionRoamState ≠
          s.flightStatus.PositionRoamState ∨
       s.firstRun = true)) ∧
    (s.firstRun = true → (manualControlTask K s inp).newinit = true) ∧
    ((manualControlTask K s inp).newinit = true →
      (manualControlTask K s inp).state.flightStatus =
        { FlightMode := (selectHandler K s.flightStatus inp).newMode
          FlightModeGPSAssist := (selectHandler K s.flightStatus inp).newFlightModeGPSAssist
          PositionRoamState := (selectHandler K s.flightStatus inp).newPositionRoamState
          PositionRoamThrustMode := (selectHandler K s.flightStatus inp).newPositionRoamThrustMode
          ControlChain := (selectHandler K s.flightStatus inp).handler.controlChain }) ∧
    (manualControlTask K s inp).invoked =
      (match (selectHandler K s.flightStatus inp).handler.handler with
       | none => none
       | some law => some (law, (manualControlTask K s inp).newinit)) := by
  unfold manualControlTask
  simp only []
  split_ifs with hc
  · refine ⟨?_, ?_, ?_, ?_⟩
    · simp only [true_iff]
      rcases hc with hc | hc | hc
      · exact Or.inl (Ne.symm hc)
      · exact Or.inr (Or.inr hc)
      · exact Or.inr (Or.inl hc)
    · intro _
      rfl
    · intro _
      rfl
    · cases (selectHandler K s.flightStatus inp).handler.handler <;> rfl
  · simp only [not_or, not_not] at hc
    refine ⟨?_, ?_, ?_, ?_⟩
    · simp only [Bool.false_eq_true, false_iff, not_or]
      exact ⟨fun h => h hc.1.symm, fun h => h hc.2.2, hc.2.1⟩
    · intro h
      exact absurd h hc.2.1
    · intro h
      exact absurd h (by simp)
    · cases (selectHandler K s.flightStatus inp).handler.handler <;> rfl

/-- Witness for C3: a first run whose computed mode and roam state equal the
stored ones (Manual, none) still raises `newinit`, commits and calls the manual
law with `true`. -/
theorem reconciler_commit_and_call_witness :
    (manualControlTask sampleConsts (startup (sampleStatus 0 0))
        (sampleInputs [0] [] 0 0 0 0)).newinit = true ∧
    (manualControlTask sampleConsts (startup (sampleStatus 0 0))
        (sampleInputs [0] [] 0 0 0 0)).state.flightStatus = sampleStatus 0 0 ∧
    (manualControlTask sampleConsts (startup (sampleStatus 0 0))
        (sampleInputs [0] [] 0 0 0 0)).invoked = some (HandlerFn.manualHandler, true) :=
  have h := reconciler_commit_and_call sampleConsts (startup (sampleStatus 0 0))
    (sampleInputs [0] [] 0 0 0 0)
  ⟨h.2.1 rfl, h.2.2.1 (h.2.1 rfl), by decide⟩

/-! ## GPS roam -/

/-- C4. When the resolved mode is one of Stabilized1..6, the GPS-assist flag
of the switch position is set and the roll or the pitch stick is deflected,
the computed roam state is Stabilized whatever the stored one was, the computed
thrust mode is Manual if the thrust control setting is manual and Mixed
otherwise, and the selected handler has the stabilized law and the chain
(true, false, false). -/
theorem roam_sticks_deflected (K : UAVObjConsts) (hK : K.WellFormed) (fs : FlightStatusData)
    (inp : CycleInputs K)
    (hmode : K.isStabilized (resolveMode K fs inp))
    (hgps : isGPSAssistedFlightMode K inp.FlightModeGPSAssistMap
      inp.cmd.FlightModeSwitchPosition ≠ 0)
    (hsticks : inp.cmd.Roll ≠ 0 ∨ inp.cmd.Pitch ≠ 0) :
    (selectHandler K fs inp).newPositionRoamState = K.FLIGHTSTATUS_POSITIONROAMSTATE_STABILIZED ∧
    (selectHandler K fs inp).newPositionRoamThrustMode =
      (if inp.ThrustControl = K.VTOLPATHFOLLOWERSETTINGS_THRUSTCONTROL_MANUAL then
        K.FLIGHTSTATUS_POSITIONROAMTHRUSTMODE_MANUAL
      else K.FLIGHTSTATUS_POSITIONROAMTHRUSTMODE_MIXED) ∧
    (selectHandler K fs inp).handler.handler = some HandlerFn.stabilizedHandler ∧
    (selectHandler K fs inp).handler.controlChain =
      { Stabilization := true, PathFollower := false, PathPlanner := false } := by
  rw [selectHandler_stabilized K hK fs inp hmode, if_pos hgps,
    if_pos ((sticks_deflected_iff inp.cmd).mpr hsticks)]
  exact ⟨rfl, rfl, rfl, rfl⟩

/-- Witness for C4: stored roam state Braking, mode Stabilized1 with GPS assist
and roll 1, thrust control not manual: roam state Stabilized, thrust Mixed. -/
theorem roam_sticks_deflected_witness :
    (selectHandler sampleConsts (sampleStatus 1 2)
        (sampleInputs [1] [1] 1 0 1 0)).newPositionRoamState = 1 ∧
    (selectHandler sampleConsts (sampleStatus 1 2)
        (sampleInputs [1] [1] 1 0 1 0)).newPositionRoamThrustMode = 1 ∧
    (selectHandler sampleConsts (sampleStatus 1 2)
        (sampleInputs [1] [1] 1 0 1 0)).handler.handler = some HandlerFn.stabilizedHandler ∧
    (selectHandler sampleConsts (sampleStatus 1 2)
        (sampleInputs [1] [1] 1 0 1 0)).handler.controlChain =
      { Stabilization := true, PathFollower := false, PathPlanner := false } :=
  roam_sticks_deflected sampleConsts (by decide) (sampleStatus 1 2)
    (sampleInputs [1] [1] 1 0 1 0) (by decide) (by decide) (by decide)

/-- C5. When the resolved mode is one of Stabilized1..6, the GPS-assist flag
of the switch position is set and roll and pitch are both zero, the selected
handler has the path-follower law and the chain (true, true, false); the
computed roam state is Braking when the stored one is None or Stabilized and
also when the stored one is Braking; the thrust mode is the stored one. -/
theorem roam_sticks_centred (K : UAVObjConsts) (hK : K.WellFormed) (fs : FlightStatusData)
    (inp : CycleInputs K)
    (hmode : K.isStabilized (resolveMode K fs inp))
    (hgps : isGPSAssistedFlightMode K inp.FlightModeGPSAssistMap
      inp.cmd.FlightModeSwitchPosition ≠ 0)
    (hroll : inp.cmd.Roll = 0) (hpitch : inp.cmd.Pitch = 0) :
    (selectHandler K fs inp).handler.handler = some HandlerFn.pathFollowerHandler ∧
    (selectHandler K fs inp).handler.controlChain =
      { Stabilization := true, PathFollower := true, PathPlanner := false } ∧
    (fs.PositionRoamState = K.FLIGHTSTATUS_POSITIONROAMSTATE_NONE ∨
      fs.PositionRoamState = K.FLIGHTSTATUS_POSITIONROAMSTATE_STABILIZED ∨
      fs.PositionRoamState = K.FLIGHTSTATUS_POSITIONROAMSTATE_BRAKING →
        (selectHandler K fs inp).newPositionRoamState =
          K.FLIGHTSTATUS_POSITIONROAMSTATE_BRAKING) ∧
    (selectHandler K fs inp).newPositionRoamThrustMode = fs.PositionRoamThrustMode := by
  have hd : ¬ (fabsf inp.cmd.Roll > 0 ∨ fabsf inp.cmd.Pitch > 0) := by
    rw [sticks_deflected_iff]
    simp [hroll, hpitch]
  rw [selectHandler_stabilized K hK fs inp hmode, if_pos hgps, if_neg hd]
  refine ⟨rfl, rfl, ?_, rfl⟩
  intro h
  show (if fs.PositionRoamState = K.FLIGHTSTATUS_POSITIONROAMSTATE_NONE ∨
      fs.PositionRoamState = K.FLIGHTSTATUS_POSITIONROAMSTATE_STABILIZED then
        K.FLIGHTSTATUS_POSITIONROAMSTATE_BRAKING
      else fs.PositionRoamState) = K.FLIGHTSTATUS_POSITIONROAMSTATE_BRAKING
  split_ifs with h1
  · rfl
  · rcases h with h | h | h
    · exact absurd (Or.inl h) h1
    · exact absurd (Or.inr h) h1
    · exact h

/-- Witness for C5: Stabilized1 with GPS assist and centred sticks, from the
stored roam states None, Stabilized and Braking in turn. -/
theorem roam_sticks_centred_witness :
    ((selectHandler sampleConsts (sampleStatus 1 0)
        (sampleInputs [1] [1] 0 0 0 0)).handler = handler_PATHFOLLOWER ∧
     (selectHandler sampleConsts (sampleStatus 1 0)
        (sampleInputs [1] [1] 0 0 0 0)).newPositionRoamState = 2) ∧
    (selectHandler sampleConsts (sampleStatus 1 1)
        (sampleInputs [1] [1] 0 0 0 0)).newPositionRoamState = 2 ∧
    (selectHandler sampleConsts (sampleStatus 1 2)
        (sampleInputs [1] [1] 0 0 0 0)).newPositionRoamState = 2 :=
  ⟨⟨by decide,
    (roam_sticks_centred sampleConsts (by decide) (sampleStatus 1 0)
      (sampleInputs [1] [1] 0 0 0 0) (by decide) (by decide) rfl rfl).2.2.1 (by decide)⟩,
   (roam_sticks_centred sampleConsts (by decide) (sampleStatus 1 1)
      (sampleInputs [1] [1] 0 0 0 0) (by decide) (by decide) rfl rfl).2.2.1 (by decide),
   (roam_sticks_centred sampleConsts (by decide) (sampleStatus 1 2)
      (sampleInputs [1] [1] 0 0 0 0) (by decide) (by decide) rfl rfl).2.2.1 (by decide)⟩

/-! ## Unmapped mode values -/

/-- C6. When the resolved mode is none of the seventeen flight modes named by
the `switch`, the selected handler is the Manual one, chain
(false, false, false) with the manual law, and the computed GPS-assist flag,
roam state and thrust mode are the stored ones. -/
theorem unmapped_mode_fails_closed (K : UAVObjConsts) (fs : FlightStatusData)
    (inp : CycleInputs K) (hmode : resolveMode K fs inp ∉ K.flightModes) :
    (selectHandler K fs inp).handler =
      { controlChain := { Stabilization := false, PathFollower := false, PathPlanner := false },
        handler := some HandlerFn.manualHandler } ∧
    (selectHandler K fs inp).newFlightModeGPSAssist = fs.FlightModeGPSAssist ∧
    (selectHandler K fs inp).newPositionRoamState = fs.PositionRoamState ∧
    (selectHandler K fs inp).newPositionRoamThrustMode = fs.PositionRoamThrustMode := by
  rw [selectHandler_unmapped K fs inp hmode]
  exact ⟨rfl, rfl, rfl, rfl⟩

/-- Witness for C6: the mode value 200 at the switch position, with stored
roam state Braking. -/
theorem unmapped_mode_fails_closed_witness :
    (selectHandler sampleConsts (sampleStatus 1 2)
        (sampleInputs [200] [1] 0 0 0 0)).handler =
      { controlChain := { Stabilization := false, PathFollower := false, PathPlanner := false },
        handler := some HandlerFn.manualHandler } ∧
    (selectHandler sampleConsts (sampleStatus 1 2)
        (sampleInputs [200] [1] 0 0 0 0)).newFlightModeGPSAssist = 0 ∧
    (selectHandler sampleConsts (sampleStatus 1 2)
        (sampleInputs [200] [1] 0 0 0 0)).newPositionRoamState = 2 ∧
    (selectHandler sampleConsts (sampleStatus 1 2)
        (sampleInputs [200] [1] 0 0 0 0)).newPositionRoamThrustMode = 0 :=
  unmapped_mode_fails_closed sampleConsts (sampleStatus 1 2)
    (sampleInputs [200] [1] 0 0 0 0) (by decide)

/-! ## The cycle as a whole -/

theorem manualControlTask_synced (K : UAVObjConsts) (s : ModuleState) (inp : CycleInputs K) :
    (manualControlTask K s inp).state.firstRun = false ∧
    (manualControlTask K s inp).state.flightStatus.FlightMode =
      (selectHandler K s.flightStatus inp).newMode ∧
    (manualControlTask K s inp).state.flightStatus.PositionRoamState =
      (selectHandler K s.flightStatus inp).newPositionRoamState := by
  unfold manualControlTask
  simp only []
  split_ifs with hc
  · exact ⟨rfl, rfl, rfl⟩
  · simp only [not_or, not_not, Bool.not_eq_true] at hc
    exact ⟨hc.2.1, hc.1, hc.2.2.symm⟩

theorem selectHandler_settled (K : UAVObjConsts) (fs fs2 : FlightStatusData) (inp : CycleInputs K)
    (hm : fs2.FlightMode = (selectHandler K fs inp).newMode)
    (hr : fs2.PositionRoamState = (selectHandler K fs inp).newPositionRoamState) :
    (selectHandler K fs2 inp).newMode = fs2.FlightMode ∧
    (selectHandler K fs2 inp).newPositionRoamState = fs2.PositionRoamState := by
  have hres : resolveMode K fs2 inp = resolveMode K fs inp := by
    rw [selectHandler_newMode] at hm
    unfold resolveMode at hm ⊢
    simp only [] at hm ⊢
    split_ifs with h
    · rfl
    · rw [hm, dif_neg h]
  have hm2 : (selectHandler K fs2 inp).newMode = fs2.FlightMode := by
    rw [selectHandler_newMode, hres, hm, selectHandler_newMode]
  refine ⟨hm2, ?_⟩
  rw [hr]
  unfold selectHandler at hr ⊢
  simp only [hres] at hr ⊢
  split_ifs at hr ⊢ <;> simp_all

theorem mode_cases (K : UAVObjConsts) (m : Nat) :
    m = K.FLIGHTSTATUS_FLIGHTMODE_MANUAL ∨ K.isStabilized m ∨ K.isPathFollowerMode m ∨
    m = K.FLIGHTSTATUS_FLIGHTMODE_PATHPLANNER ∨ m = K.FLIGHTSTATUS_FLIGHTMODE_AUTOTUNE ∨
    m ∉ K.flightModes := by
  by_cases h : m ∈ K.flightModes
  · rw [flightModes_eq] at h
    simp only [List.mem_cons, List.mem_append, List.mem_singleton, List.not_mem_nil,
      or_false, ← isStabilized_iff_mem, ← isPathFollowerMode_iff_mem] at h
    tauto
  · tauto

theorem specDispatchTable_unmapped (K : UAVObjConsts) (m : Nat) (h : m ∉ K.flightModes) :
    specDispatchTable K m = handler_MANUAL := by
  rw [flightModes_eq] at h
  simp only [List.mem_cons, List.mem_append, List.mem_singleton, List.not_mem_nil,
    or_false, ← isStabilized_iff_mem, ← isPathFollowerMode_iff_mem, not_or] at h
  unfold specDispatchTable
  simp only [h.1, h.2.1, h.2.2.1, h.2.2.2.1, h.2.2.2.2, if_false]

/-- Outside the GPS-roam override the `switch` selects the handler of the
specification's table. -/
theorem selectHandler_eq_table (K : UAVObjConsts) (hK : K.WellFormed) (fs : FlightStatusData)
    (inp : CycleInputs K) (hno : ¬ roamOverride K fs inp) :
    (selectHandler K fs inp).handler = specDispatchTable K (resolveMode K fs inp) := by
  obtain ⟨hsm, hpm, hppm, hatm, hps, hpps, hats, hppp, hatp, hatpp⟩ := caseLabels_distinct K hK
  rcases mode_cases K (resolveMode K fs inp) with h | h | h | h | h | h
  · rw [selectHandler_manual K fs inp h]
    unfold specDispatchTable
    rw [if_pos h]
    rfl
  · rw [selectHandler_stabilized_plain K hK fs inp h hno]
    unfold specDispatchTable
    rw [if_neg (hsm _ h), if_pos h]
  · rw [selectHandler_pathFollower K hK fs inp h]
    have hat : resolveMode K fs inp ≠ K.FLIGHTSTATUS_FLIGHTMODE_AUTOTUNE :=
      fun e => hatp (e ▸ h)
    unfold specDispatchTable
    rw [if_neg (hpm _ h), if_neg (hps _ h), if_neg hat, if_pos h]
  · rw [selectHandler_pathPlanner K hK fs inp h]
    unfold specDispatchTable
    rw [h, if_neg hppm, if_neg hpps, if_neg (Ne.symm hatpp), if_neg hppp, if_pos rfl]
  · rw [selectHandler_autotune K hK fs inp h]
    unfold specDispatchTable
    rw [h, if_neg hatm, if_neg hats, if_pos rfl]
  · rw [selectHandler_unmapped K fs inp h, specDispatchTable_unmapped K _ h]
    rfl

/-- What the `switch` selects always satisfies the chain invariant, taken as
a status: table entry of the resolved mode, or the GPS-roam override. -/
theorem selectHandler_chain (K : UAVObjConsts) (hK : K.WellFormed) (fs : FlightStatusData)
    (inp : CycleInputs K) :
    ChainInvariant K
      { FlightMode := (selectHandler K fs inp).newMode
        FlightModeGPSAssist := (selectHandler K fs inp).newFlightModeGPSAssist
        PositionRoamState := (selectHandler K fs inp).newPositionRoamState
        PositionRoamThrustMode := (selectHandler K fs inp).newPositionRoamThrustMode
        ControlChain := (selectHandler K fs inp).handler.controlChain } := by
  unfold ChainInvariant
  simp only []
  by_cases hov : roamOverride K fs inp
  · right
    obtain ⟨hs, hg, hr, hp⟩ := hov
    have hd : ¬ (fabsf inp.cmd.Roll > 0 ∨ fabsf inp.cmd.Pitch > 0) := by
      rw [sticks_deflected_iff]
      simp [hr, hp]
    obtain ⟨hbn, hbs, -⟩ := roamStates_distinct K hK
    rw [selectHandler_newMode, selectHandler_stabilized K hK fs inp hs, if_pos hg, if_neg hd]
    refine ⟨hs, rfl, hg, ?_, ?_⟩
    · show (if fs.PositionRoamState = K.FLIGHTSTATUS_POSITIONROAMSTATE_NONE ∨
          fs.PositionRoamState = K.FLIGHTSTATUS_POSITIONROAMSTATE_STABILIZED then
            K.FLIGHTSTATUS_POSITIONROAMSTATE_BRAKING
          else fs.PositionRoamState) ≠ K.FLIGHTSTATUS_POSITIONROAMSTATE_NONE
      split_ifs with h1
      · exact hbn
      · exact fun e => h1 (Or.inl e)
    · show (if fs.PositionRoamState = K.FLIGHTSTATUS_POSITIONROAMSTATE_NONE ∨
          fs.PositionRoamState = K.FLIGHTSTATUS_POSITIONROAMSTATE_STABILIZED then
            K.FLIGHTSTATUS_POSITIONROAMSTATE_BRAKING
          else fs.PositionRoamState) ≠ K.FLIGHTSTATUS_POSITIONROAMSTATE_STABILIZED
      split_ifs with h1
      · exact hbs
      · exact fun e => h1 (Or.inr e)
  · left
    rw [selectHandler_eq_table K hK fs inp hov, selectHandler_newMode]

theorem manualControlTask_chain (K : UAVObjConsts) (hK : K.WellFormed) (s : ModuleState)
    (inp : CycleInputs K) (h : s.firstRun = true ∨ ChainInvariant K s.flightStatus) :
    ChainInvariant K (manualControlTask K s inp).state.flightStatus := by
  unfold manualControlTask
  simp only []
  split_ifs with hc
  · exact selectHandler_chain K hK s.flightStatus inp
  · simp only [not_or, not_not] at hc
    rcases h with h | h
    · exact absurd h hc.2.1
    · exact h

theorem runCycles_append (K : UAVObjConsts) (s : ModuleState) (inps : List (CycleInputs K))
    (inp : CycleInputs K) :
    runCycles K s (inps ++ [inp]) = (manualControlTask K (runCycles K s inps) inp).state := by
  unfold runCycles
  rw [List.foldl_append]
  rfl

theorem runCycles_chain (K : UAVObjConsts) (hK : K.WellFormed) (s : ModuleState)
    (inps : List (CycleInputs K)) (hne : inps ≠ []) (hs : s.firstRun = true) :
    ChainInvariant K (runCycles K s inps).flightStatus := by
  induction inps using List.reverseRecOn with
  | nil => exact absurd rfl hne
  | append_singleton l inp ih =>
    rw [runCycles_append]
    apply manualControlTask_chain K hK
    by_cases hl : l = []
    · left
      rw [hl]
      exact hs
    · right
      exact ih hl

theorem selectHandler_carried (K : UAVObjConsts) (fs : FlightStatusData) (inp : CycleInputs K)
    (hns : ¬ K.isStabilized (resolveMode K fs inp)) :
    (selectHandler K fs inp).newFlightModeGPSAssist = fs.FlightModeGPSAssist ∧
    (selectHandler K fs inp).newPositionRoamState = fs.PositionRoamState ∧
    (selectHandler K fs inp).newPositionRoamThrustMode = fs.PositionRoamThrustMode := by
  unfold selectHandler
  simp only [hns, if_false]
  split_ifs <;> exact ⟨rfl, rfl, rfl⟩

theorem selectHandler_roam_kept (K : UAVObjConsts) (fs : FlightStatusData) (inp : CycleInputs K)
    (hb : fs.PositionRoamState = K.FLIGHTSTATUS_POSITIONROAMSTATE_BRAKING)
    (hno : ¬ (K.isStabilized (resolveMode K fs inp) ∧
      isGPSAssistedFlightMode K inp.FlightModeGPSAssistMap inp.cmd.FlightModeSwitchPosition ≠ 0 ∧
      (inp.cmd.Roll ≠ 0 ∨ inp.cmd.Pitch ≠ 0))) :
    (selectHandler K fs inp).newPositionRoamState = K.FLIGHTSTATUS_POSITIONROAMSTATE_BRAKING := by
  rw [← sticks_deflected_iff] at hno
  unfold selectHandler
  simp only []
  split_ifs with h1 h2 h3 h4 h5
  all_goals first
    | exact hb
    | rfl
    | exact absurd ⟨h2, h3, h4⟩ hno

theorem manualControlTask_fields (K : UAVObjConsts) (s : ModuleState) (inp : CycleInputs K) :
    ((manualControlTask K s inp).state.flightStatus.FlightModeGPSAssist =
        (selectHandler K s.flightStatus inp).newFlightModeGPSAssist ∨
      (manualControlTask K s inp).state.flightStatus.FlightModeGPSAssist =
        s.flightStatus.FlightModeGPSAssist) ∧
    ((manualControlTask K s inp).state.flightStatus.PositionRoamThrustMode =
        (selectHandler K s.flightStatus inp).newPositionRoamThrustMode ∨
      (manualControlTask K s inp).state.flightStatus.PositionRoamThrustMode =
        s.flightStatus.PositionRoamThrustMode) := by
  unfold manualControlTask
  simp only []
  split_ifs
  · exact ⟨Or.inl rfl, Or.inl rfl⟩
  · exact ⟨Or.inr rfl, Or.inr rfl⟩

/-! ## Invariant I1 -/

/-- Counterexample to C7: from startup, one cycle with the switch on
Stabilized1, the GPS-assist flag set and the sticks centred stores the mode
Stabilized1 with the path-follower chain (true, true, false), while the table
entry of the stabilized category is (true, false, false). -/
theorem stored_chain_matches_table_counterexample :
    (runCycles sampleConsts (startup (sampleStatus 0 0))
        [sampleInputs [1] [1] 0 0 0 0]).flightStatus.FlightMode = 1 ∧
    (runCycles sampleConsts (startup (sampleStatus 0 0))
        [sampleInputs [1] [1] 0 0 0 0]).flightStatus.ControlChain =
      { Stabilization := true, PathFollower := true, PathPlanner := false } ∧
    (specDispatchTable sampleConsts 1).controlChain =
      { Stabilization := true, PathFollower := false, PathPlanner := false } ∧
    (runCycles sampleConsts (startup (sampleStatus 0 0))
        [sampleInputs [1] [1] 0 0 0 0]).flightStatus.ControlChain ≠
      (specDispatchTable sampleConsts
        (runCycles sampleConsts (startup (sampleStatus 0 0))
          [sampleInputs [1] [1] 0 0 0 0]).flightStatus.FlightMode).controlChain := by
  decide

/-- C7, amended. After every sequence of one or more cycles from startup, the
stored control chain is the dispatch-table entry of the category of the stored
mode, or the stored mode is one of Stabilized1..6 and the stored chain is the
path-follower chain (true, true, false) selected by the GPS-roam override, the
stored GPS-assist flag being set and the stored roam state being neither None
nor Stabilized. -/
theorem stored_chain_table_or_override (K : UAVObjConsts) (hK : K.WellFormed)
    (fs0 : FlightStatusData) (inps : List (CycleInputs K)) (hne : inps ≠ []) :
    (runCycles K (startup fs0) inps).flightStatus.ControlChain =
      (specDispatchTable K (runCycles K (startup fs0) inps).flightStatus.FlightMode).controlChain ∨
    (K.isStabilized (runCycles K (startup fs0) inps).flightStatus.FlightMode ∧
      (runCycles K (startup fs0) inps).flightStatus.ControlChain =
        { Stabilization := true, PathFollower := true, PathPlanner := false } ∧
      (runCycles K (startup fs0) inps).flightStatus.FlightModeGPSAssist ≠ 0 ∧
      (runCycles K (startup fs0) inps).flightStatus.PositionRoamState ≠
        K.FLIGHTSTATUS_POSITIONROAMSTATE_NONE ∧
      (runCycles K (startup fs0) inps).flightStatus.PositionRoamState ≠
        K.FLIGHTSTATUS_POSITIONROAMSTATE_STABILIZED) :=
  runCycles_chain K hK (startup fs0) inps hne rfl

/-- Witness for the amended C7: two cycles from startup, PathPlanner and then
Stabilized1 without GPS assist; the stored chain is the table entry. -/
theorem stored_chain_table_or_override_witness :
    (runCycles sampleConsts (startup (sampleStatus 0 0))
        [sampleInputs [14] [] 0 0 0 0, sampleInputs [1] [] 0 0 0 0]).flightStatus.ControlChain =
      (specDispatchTable sampleConsts
        (runCycles sampleConsts (startup (sampleStatus 0 0))
          [sampleInputs [14] [] 0 0 0 0,
           sampleInputs [1] [] 0 0 0 0]).flightStatus.FlightMode).controlChain :=
  (stored_chain_table_or_override sampleConsts (by decide) (sampleStatus 0 0)
    [sampleInputs [14] [] 0 0 0 0, sampleInputs [1] [] 0 0 0 0]
    (by simp)).resolve_right (by decide)

/-! ## Idempotent commit -/

/-- C8. Running the cycle twice in a row with the same inputs gives
`newinit = false` on the second run, and the state stored after the second run
is the state stored after the first. -/
theorem second_run_commits_nothing (K : UAVObjConsts) (s : ModuleState) (inp : CycleInputs K) :
    (manualControlTask K (manualControlTask K s inp).state inp).newinit = false ∧
    (manualControlTask K (manualControlTask K s inp).state inp).state =
      (manualControlTask K s inp).state := by
  obtain ⟨hf, hm, hr⟩ := manualControlTask_synced K s inp
  obtain ⟨hm2, hr2⟩ := selectHandler_settled K s.flightStatus
    (manualControlTask K s inp).state.flightStatus inp hm hr
  have hcond : ¬ ((manualControlTask K s inp).state.flightStatus.FlightMode ≠
        (selectHandler K (manualControlTask K s inp).state.flightStatus inp).newMode ∨
      (manualControlTask K s inp).state.firstRun = true ∨
      (selectHandler K (manualControlTask K s inp).state.flightStatus inp).newPositionRoamState ≠
        (manualControlTask K s inp).state.flightStatus.PositionRoamState) := by
    rw [hm2, hr2, hf]
    simp
  generalize manualControlTask K s inp = r1 at hcond ⊢
  unfold manualControlTask
  simp only []
  rw [if_neg hcond]
  exact ⟨rfl, rfl⟩

/-! ## Leaving Braking -/

/-- Counterexample to C9: with the stored roam state Braking, a cycle in
Stabilized1 with the GPS-assist flag set and the roll stick deflected computes
and stores the roam state Stabilized. -/
theorem braking_never_left_counterexample :
    (sampleStatus 1 2).PositionRoamState =
      sampleConsts.FLIGHTSTATUS_POSITIONROAMSTATE_BRAKING ∧
    (selectHandler sampleConsts (sampleStatus 1 2)
        (sampleInputs [1] [1] 0 0 1 0)).newPositionRoamState =
      sampleConsts.FLIGHTSTATUS_POSITIONROAMSTATE_STABILIZED ∧
    (manualControlTask sampleConsts { flightStatus := sampleStatus 1 2, firstRun := false }
        (sampleInputs [1] [1] 0 0 1 0)).state.flightStatus.PositionRoamState =
      sampleConsts.FLIGHTSTATUS_POSITIONROAMSTATE_STABILIZED ∧
    (manualControlTask sampleConsts { flightStatus := sampleStatus 1 2, firstRun := false }
        (sampleInputs [1] [1] 0 0 1 0)).state.flightStatus.PositionRoamState ≠
      sampleConsts.FLIGHTSTATUS_POSITIONROAMSTATE_BRAKING := by
  decide

/-- C9, amended. In a cycle whose stored roam state on entry is Braking, the
roam state computed, and stored after the cycle, is still Braking unless the
resolved mode is one of Stabilized1..6, the GPS-assist flag of the switch
position is set and the roll or the pitch stick is deflected; in that case it
is Stabilized. -/
theorem braking_left_only_by_sticks (K : UAVObjConsts) (hK : K.WellFormed) (s : ModuleState)
    (inp : CycleInputs K)
    (hb : s.flightStatus.PositionRoamState = K.FLIGHTSTATUS_POSITIONROAMSTATE_BRAKING) :
    (¬ (K.isStabilized (resolveMode K s.flightStatus inp) ∧
        isGPSAssistedFlightMode K inp.FlightModeGPSAssistMap
          inp.cmd.FlightModeSwitchPosition ≠ 0 ∧
        (inp.cmd.Roll ≠ 0 ∨ inp.cmd.Pitch ≠ 0)) →
      (selectHandler K s.flightStatus inp).newPositionRoamState =
        K.FLIGHTSTATUS_POSITIONROAMSTATE_BRAKING ∧
      (manualControlTask K s inp).state.flightStatus.PositionRoamState =
        K.FLIGHTSTATUS_POSITIONROAMSTATE_BRAKING) ∧
    (K.isStabilized (resolveMode K s.flightStatus inp) ∧
        isGPSAssistedFlightMode K inp.FlightModeGPSAssistMap
          inp.cmd.FlightModeSwitchPosition ≠ 0 ∧
        (inp.cmd.Roll ≠ 0 ∨ inp.cmd.Pitch ≠ 0) →
      (selectHandler K s.flightStatus inp).newPositionRoamState =
        K.FLIGHTSTATUS_POSITIONROAMSTATE_STABILIZED ∧
      (manualControlTask K s inp).state.flightStatus.PositionRoamState =
        K.FLIGHTSTATUS_POSITIONROAMSTATE_STABILIZED) := by
  have hsync := (manualControlTask_synced K s inp).2.2
  constructor
  · intro hno
    have h := selectHandler_roam_kept K s.flightStatus inp hb hno
    exact ⟨h, hsync.trans h⟩
  · rintro ⟨hs, hg, hd⟩
    have h : (selectHandler K s.flightStatus inp).newPositionRoamState =
        K.FLIGHTSTATUS_POSITIONROAMSTATE_STABILIZED := by
      rw [selectHandler_stabilized K hK s.flightStatus inp hs, if_pos hg,
        if_pos ((sticks_deflected_iff inp.cmd).mpr hd)]
    exact ⟨h, hsync.trans h⟩

/-- Witness for the amended C9: stored roam state Braking; with centred sticks
in GPS-assisted Stabilized1 it stays Braking (2), with the roll stick
deflected it becomes Stabilized (1). -/
theorem braking_left_only_by_sticks_witness :
    (manualControlTask sampleConsts { flightStatus := sampleStatus 1 2, firstRun := false }
        (sampleInputs [1] [1] 0 0 0 0)).state.flightStatus.PositionRoamState = 2 ∧
    (manualControlTask sampleConsts { flightStatus := sampleStatus 1 2, firstRun := false }
        (sampleInputs [1] [1] 0 0 1 0)).state.flightStatus.PositionRoamState = 1 :=
  ⟨((braking_left_only_by_sticks sampleConsts (by decide)
      { flightStatus := sampleStatus 1 2, firstRun := false }
      (sampleInputs [1] [1] 0 0 0 0) rfl).1 (by decide)).2,
   ((braking_left_only_by_sticks sampleConsts (by decide)
      { flightStatus := sampleStatus 1 2, firstRun := false }
      (sampleInputs [1] [1] 0 0 1 0) rfl).2 (by decide)).2⟩

/-! ## Invariant I2 -/

/-- C10. In a cycle whose resolved mode is not one of Stabilized1..6 the
computed GPS-assist flag, roam state and thrust mode are the stored ones, and
these three fields of the stored status are the same after the cycle as
before; when the resolved mode is PathPlanner the selected handler has the
chain (true, true, true) and the path-planner law. -/
theorem roam_fields_untouched_outside_stabilized (K : UAVObjConsts) (hK : K.WellFormed)
    (s : ModuleState) (inp : CycleInputs K)
    (hns : ¬ K.isStabilized (resolveMode K s.flightStatus inp)) :
    ((selectHandler K s.flightStatus inp).newFlightModeGPSAssist =
        s.flightStatus.FlightModeGPSAssist ∧
      (selectHandler K s.flightStatus inp).newPositionRoamState =
        s.flightStatus.PositionRoamState ∧
      (selectHandler K s.flightStatus inp).newPositionRoamThrustMode =
        s.flightStatus.PositionRoamThrustMode) ∧
    ((manualControlTask K s inp).state.flightStatus.FlightModeGPSAssist =
        s.flightStatus.FlightModeGPSAssist ∧
      (manualControlTask K s inp).state.flightStatus.PositionRoamState =
        s.flightStatus.PositionRoamState ∧
      (manualControlTask K s inp).state.flightStatus.PositionRoamThrustMode =
        s.flightStatus.PositionRoamThrustMode) ∧
    (resolveMode K s.flightStatus inp = K.FLIGHTSTATUS_FLIGHTMODE_PATHPLANNER →
      (selectHandler K s.flightStatus inp).handler =
        { controlChain := { Stabilization := true, PathFollower := true, PathPlanner := true },
          handler := some HandlerFn.pathPlannerHandler }) := by
  obtain ⟨hg, hr, ht⟩ := selectHandler_carried K s.flightStatus inp hns
  obtain ⟨hfg, hft⟩ := manualControlTask_fields K s inp
  refine ⟨⟨hg, hr, ht⟩, ⟨?_, ?_, ?_⟩, ?_⟩
  · rcases hfg with h | h
    · exact h.trans hg
    · exact h
  · exact ((manualControlTask_synced K s inp).2.2).trans hr
  · rcases hft with h | h
    · exact h.trans ht
    · exact h
  · intro hpp
    rw [selectHandler_pathPlanner K hK s.flightStatus inp hpp]
    rfl

/-- Witness for C10: the switch moves to PathPlanner while the stored status
has mode Stabilized1 and roam state Braking; the path-planner handler is
selected and the roam state is still Braking (2) after the cycle. -/
theorem roam_fields_untouched_outside_stabilized_witness :
    (selectHandler sampleConsts (sampleStatus 1 2)
        (sampleInputs [14] [1] 0 0 0 0)).handler = handler_PATHPLANNER ∧
    (manualControlTask sampleConsts { flightStatus := sampleStatus 1 2, firstRun := false }
        (sampleInputs [14] [1] 0 0 0 0)).state.flightStatus.PositionRoamState = 2 :=
  ⟨(roam_fields_untouched_outside_stabilized sampleConsts (by decide)
      { flightStatus := sampleStatus 1 2, firstRun := false }
      (sampleInputs [14] [1] 0 0 0 0) (by decide)).2.2 (by decide),
   (roam_fields_untouched_outside_stabilized sampleConsts (by decide)
      { flightStatus := sampleStatus 1 2, firstRun := false }
      (sampleInputs [14] [1] 0 0 0 0) (by decide)).2.1.2.1⟩

/-! ## GPS-assist lookup -/

/-- C11. The flag returned by `isGPSAssistedFlightMode` is the entry of the
GPS-assist map at the switch position when the position is below the map
length, and the constant None when it is not. With None being zero, the value
the `if` on the flag reads as false, a cycle in one of Stabilized1..6 with the
position at or beyond the map length takes neither roam branch whatever the
sticks are: the stabilized handler is selected and the roam state and thrust
mode are the stored ones. -/
theorem gps_assist_lookup_bounds_checked (K : UAVObjConsts) (hK : K.WellFormed)
    (hnone : K.STABILIZATIONSETTINGS_FLIGHTMODEGPSASSISTMAP_NONE = 0)
    (fs : FlightStatusData) (inp : CycleInputs K) :
    (∀ h : inp.cmd.FlightModeSwitchPosition <
        K.STABILIZATIONSETTINGS_FLIGHTMODEGPSASSISTMAP_NUMELEM,
      isGPSAssistedFlightMode K inp.FlightModeGPSAssistMap inp.cmd.FlightModeSwitchPosition =
        inp.FlightModeGPSAssistMap ⟨inp.cmd.FlightModeSwitchPosition, h⟩) ∧
    (K.STABILIZATIONSETTINGS_FLIGHTMODEGPSASSISTMAP_NUMELEM ≤ inp.cmd.FlightModeSwitchPosition →
      isGPSAssistedFlightMode K inp.FlightModeGPSAssistMap inp.cmd.FlightModeSwitchPosition =
        K.STABILIZATIONSETTINGS_FLIGHTMODEGPSASSISTMAP_NONE) ∧
    (K.STABILIZATIONSETTINGS_FLIGHTMODEGPSASSISTMAP_NUMELEM ≤ inp.cmd.FlightModeSwitchPosition →
      K.isStabilized (resolveMode K fs inp) →
        (selectHandler K fs inp).handler = handler_STABILIZED ∧
        (selectHandler K fs inp).newFlightModeGPSAssist =
          K.STABILIZATIONSETTINGS_FLIGHTMODEGPSASSISTMAP_NONE ∧
        (selectHandler K fs inp).newPositionRoamState = fs.PositionRoamState ∧
        (selectHandler K fs inp).newPositionRoamThrustMode = fs.PositionRoamThrustMode) := by
  have hin : ∀ h : inp.cmd.FlightModeSwitchPosition <
        K.STABILIZATIONSETTINGS_FLIGHTMODEGPSASSISTMAP_NUMELEM,
      isGPSAssistedFlightMode K inp.FlightModeGPSAssistMap inp.cmd.FlightModeSwitchPosition =
        inp.FlightModeGPSAssistMap ⟨inp.cmd.FlightModeSwitchPosition, h⟩ := by
    intro h
    unfold isGPSAssistedFlightMode
    simp only [h, dif_pos]
  have hout : K.STABILIZATIONSETTINGS_FLIGHTMODEGPSASSISTMAP_NUMELEM ≤
        inp.cmd.FlightModeSwitchPosition →
      isGPSAssistedFlightMode K inp.FlightModeGPSAssistMap inp.cmd.FlightModeSwitchPosition =
        K.STABILIZATIONSETTINGS_FLIGHTMODEGPSASSISTMAP_NONE := by
    intro h
    unfold isGPSAssistedFlightMode
    simp only [Nat.not_lt.mpr h, dif_neg, not_false_eq_true]
  refine ⟨hin, hout, ?_⟩
  intro hpos hmode
  have hflag : ¬ (isGPSAssistedFlightMode K inp.FlightModeGPSAssistMap
      inp.cmd.FlightModeSwitchPosition ≠ 0) := by
    rw [hout hpos, hnone]
    simp
  rw [selectHandler_stabilized K hK fs inp hmode, if_neg hflag]
  exact ⟨rfl, hout hpos, rfl, rfl⟩

/-- Witness for C11: a map with the flag set at every one of its six positions;
position 2 reads the flag 1, position 6 reads None, and the Stabilized1 cycle
at position 6 with the roll stick deflected selects the stabilized handler and
keeps the stored roam state Braking (2). -/
theorem gps_assist_lookup_bounds_checked_witness :
    isGPSAssistedFlightMode sampleConsts
        (sampleInputs [1] [1, 1, 1, 1, 1, 1] 0 2 1 0).FlightModeGPSAssistMap 2 = 1 ∧
    isGPSAssistedFlightMode sampleConsts
        (sampleInputs [1] [1, 1, 1, 1, 1, 1] 0 6 1 0).FlightModeGPSAssistMap 6 = 0 ∧
    (selectHandler sampleConsts (sampleStatus 1 2)
        (sampleInputs [1] [1, 1, 1, 1, 1, 1] 0 6 1 0)).handler = handler_STABILIZED ∧
    (selectHandler sampleConsts (sampleStatus 1 2)
        (sampleInputs [1] [1, 1, 1, 1, 1, 1] 0 6 1 0)).newPositionRoamState = 2 :=
  ⟨(gps_assist_lookup_bounds_checked sampleConsts (by decide) rfl (sampleStatus 1 2)
      (sampleInputs [1] [1, 1, 1, 1, 1, 1] 0 2 1 0)).1 (by decide),
   (gps_assist_lookup_bounds_checked sampleConsts (by decide) rfl (sampleStatus 1 2)
      (sampleInputs [1] [1, 1, 1, 1, 1, 1] 0 6 1 0)).2.1 (by decide),
   ((gps_assist_lookup_bounds_checked sampleConsts (by decide) rfl (sampleStatus 1 2)
      (sampleInputs [1] [1, 1, 1, 1, 1, 1] 0 6 1 0)).2.2 (by decide) (by decide)).1,
   ((gps_assist_lookup_bounds_checked sampleConsts (by decide) rfl (sampleStatus 1 2)
      (sampleInputs [1] [1, 1, 1, 1, 1, 1] 0 6 1 0)).2.2 (by decide) (by decide)).2.2.1⟩

/-- C12. When the resolved mode is one of Stabilized1..6 and the GPS-assist
flag of the switch position is not set, the computed roam state and thrust
mode are the stored ones and the selected handler has the stabilized law and
the chain (true, false, false), whatever roll and pitch are. -/
theorem stabilized_without_gps_assist (K : UAVObjConsts) (hK : K.WellFormed)
    (fs : FlightStatusData) (inp : CycleInputs K)
    (hmode : K.isStabilized (resolveMode K fs inp))
    (hgps : isGPSAssistedFlightMode K inp.FlightModeGPSAssistMap
      inp.cmd.FlightModeSwitchPosition = 0) :
    (selectHandler K fs inp).newPositionRoamState = fs.PositionRoamState ∧
    (selectHandler K fs inp).newPositionRoamThrustMode = fs.PositionRoamThrustMode ∧
    (selectHandler K fs inp).handler.handler = some HandlerFn.stabilizedHandler ∧
    (selectHandler K fs inp).handler.controlChain =
      { Stabilization := true, PathFollower := false, PathPlanner := false } := by
  rw [selectHandler_stabilized K hK fs inp hmode, if_neg (not_not.mpr hgps)]
  exact ⟨rfl, rfl, rfl, rfl⟩

/-- Witness for C12: Stabilized3 at a position whose flag is clear, stored
roam state Braking, both sticks deflected. -/
theorem stabilized_without_gps_assist_witness :
    (selectHandler sampleConsts (sampleStatus 3 2)
        (sampleInputs [3] [0] 0 0 1 (-1))).newPositionRoamState = 2 ∧
    (selectHandler sampleConsts (sampleStatus 3 2)
        (sampleInputs [3] [0] 0 0 1 (-1))).newPositionRoamThrustMode = 0 ∧
    (selectHandler sampleConsts (sampleStatus 3 2)
        (sampleInputs [3] [0] 0 0 1 (-1))).handler.handler =
      some HandlerFn.stabilizedHandler ∧
    (selectHandler sampleConsts (sampleStatus 3 2)
        (sampleInputs [3] [0] 0 0 1 (-1))).handler.controlChain =
      { Stabilization := true, PathFollower := false, PathPlanner := false } :=
  stabilized_without_gps_assist sampleConsts (by decide) (sampleStatus 3 2)
    (sampleInputs [3] [0] 0 0 1 (-1)) (by decide) (by decide)

/-! ## Invariant I3 -/

/-- C13. On a cycle that is not the first one, a commit (`newinit` true)
leaves a stored status that differs from the one before the cycle, in the mode
or in the roam state, and without a commit the stored status is the one before
the cycle. -/
theorem commit_only_on_change (K : UAVObjConsts) (s : ModuleState) (inp : CycleInputs K)
    (hfirst : s.firstRun = false) :
    ((manualControlTask K s inp).newinit = true →
      (manualControlTask K s inp).state.flightStatus ≠ s.flightStatus ∧
      ((manualControlTask K s inp).state.flightStatus.FlightMode ≠ s.flightStatus.FlightMode ∨
       (manualControlTask K s inp).state.flightStatus.PositionRoamState ≠
          s.flightStatus.PositionRoamState)) ∧
    ((manualControlTask K s inp).newinit = false →
      (manualControlTask K s inp).state.flightStatus = s.flightStatus) := by
  unfold manualControlTask
  simp only []
  split_ifs with hc
  · refine ⟨fun _ => ?_, fun h => absurd h (by simp)⟩
    have hdiff : (selectHandler K s.flightStatus inp).newMode ≠ s.flightStatus.FlightMode ∨
        (selectHandler K s.flightStatus inp).newPositionRoamState ≠
          s.flightStatus.PositionRoamState := by
      rcases hc with hc | hc | hc
      · exact Or.inl (Ne.symm hc)
      · rw [hfirst] at hc
        exact absurd hc (by simp)
      · exact Or.inr hc
    refine ⟨?_, hdiff⟩
    intro heq
    rcases hdiff with hd | hd
    · exact hd (congrArg FlightStatusData.FlightMode heq)
    · exact hd (congrArg FlightStatusData.PositionRoamState heq)
  · exact ⟨fun h => absurd h (by simp), fun _ => rfl⟩

/-- Witness for C13: stored Manual, not the first run; the switch on
PathPlanner commits and changes the stored mode, the switch on Manual commits
nothing and leaves the stored status as it was. -/
theorem commit_only_on_change_witness :
    (manualControlTask sampleConsts { flightStatus := sampleStatus 0 0, firstRun := false }
        (sampleInputs [14] [] 0 0 0 0)).state.flightStatus ≠ sampleStatus 0 0 ∧
    (manualControlTask sampleConsts { flightStatus := sampleStatus 0 0, firstRun := false }
        (sampleInputs [0] [] 0 0 0 0)).state.flightStatus = sampleStatus 0 0 :=
  ⟨((commit_only_on_change sampleConsts
      { flightStatus := sampleStatus 0 0, firstRun := false }
      (sampleInputs [14] [] 0 0 0 0) rfl).1 (by decide)).1,
   (commit_only_on_change sampleConsts
      { flightStatus := sampleStatus 0 0, firstRun := false }
      (sampleInputs [0] [] 0 0 0 0) rfl).2 (by decide)⟩

/-! ## Cycles that commit nothing -/

theorem manualControlTask_no_commit (K : UAVObjConsts) (s : ModuleState) (inp : CycleInputs K)
    (hfirst : s.firstRun = false)
    (hm : (selectHandler K s.flightStatus inp).newMode = s.flightStatus.FlightMode)
    (hr : (selectHandler K s.flightStatus inp).newPositionRoamState =
      s.flightStatus.PositionRoamState) :
    manualControlTask K s inp =
      { state := s
        newinit := false
        invoked := (selectHandler K s.flightStatus inp).handler.handler.map
          (fun f => (f, false)) } := by
  have hcond : ¬ (s.flightStatus.FlightMode ≠ (selectHandler K s.flightStatus inp).newMode ∨
      s.firstRun = true ∨
      (selectHandler K s.flightStatus inp).newPositionRoamState ≠
        s.flightStatus.PositionRoamState) := by
    rw [hm, hr, hfirst]
    simp
  unfold manualControlTask
  simp only []
  rw [if_neg hcond]

theorem resolveMode_out_of_range (K : UAVObjConsts) (fs : FlightStatusData) (inp : CycleInputs K)
    (h : K.FLIGHTMODESETTINGS_FLIGHTMODEPOSITION_NUMELEM ≤ inp.cmd.FlightModeSwitchPosition) :
    resolveMode K fs inp = fs.FlightMode := by
  unfold resolveMode
  simp only [Nat.not_lt.mpr h, dif_neg, not_false_eq_true]

/-- C14. On a cycle that is not the first one, with the stored mode one of
Stabilized1..6 and equal to the resolved mode, the stored roam state Braking,
the GPS-assist flag of the switch position set and both sticks centred, the
computed roam state is Braking, nothing is committed, the state is unchanged
and the path-follower law is called with `false`. -/
theorem braking_hold_commits_nothing (K : UAVObjConsts) (hK : K.WellFormed) (s : ModuleState)
    (inp : CycleInputs K)
    (hfirst : s.firstRun = false)
    (hstab : K.isStabilized s.flightStatus.FlightMode)
    (hmode : resolveMode K s.flightStatus inp = s.flightStatus.FlightMode)
    (hb : s.flightStatus.PositionRoamState = K.FLIGHTSTATUS_POSITIONROAMSTATE_BRAKING)
    (hgps : isGPSAssistedFlightMode K inp.FlightModeGPSAssistMap
      inp.cmd.FlightModeSwitchPosition ≠ 0)
    (hroll : inp.cmd.Roll = 0) (hpitch : inp.cmd.Pitch = 0) :
    (selectHandler K s.flightStatus inp).newPositionRoamState =
      K.FLIGHTSTATUS_POSITIONROAMSTATE_BRAKING ∧
    (manualControlTask K s inp).newinit = false ∧
    (manualControlTask K s inp).state = s ∧
    (manualControlTask K s inp).invoked = some (HandlerFn.pathFollowerHandler, false) := by
  have hs : K.isStabilized (resolveMode K s.flightStatus inp) := by
    rw [hmode]
    exact hstab
  have hd : ¬ (fabsf inp.cmd.Roll > 0 ∨ fabsf inp.cmd.Pitch > 0) := by
    rw [sticks_deflected_iff]
    simp [hroll, hpitch]
  have hsel := selectHandler_stabilized K hK s.flightStatus inp hs
  rw [if_pos hgps, if_neg hd] at hsel
  have hr : (selectHandler K s.flightStatus inp).newPositionRoamState =
      K.FLIGHTSTATUS_POSITIONROAMSTATE_BRAKING := by
    rw [hsel]
    show (if s.flightStatus.PositionRoamState = K.FLIGHTSTATUS_POSITIONROAMSTATE_NONE ∨
        s.flightStatus.PositionRoamState = K.FLIGHTSTATUS_POSITIONROAMSTATE_STABILIZED then
          K.FLIGHTSTATUS_POSITIONROAMSTATE_BRAKING
        else s.flightStatus.PositionRoamState) = K.FLIGHTSTATUS_POSITIONROAMSTATE_BRAKING
    split_ifs
    · rfl
    · exact hb
  have hh : (selectHandler K s.flightStatus inp).handler = handler_PATHFOLLOWER := by
    rw [hsel]
  have hm : (selectHandler K s.flightStatus inp).newMode = s.flightStatus.FlightMode := by
    rw [selectHandler_newMode, hmode]
  rw [manualControlTask_no_commit K s inp hfirst hm (hr.trans hb.symm), hh]
  exact ⟨hr, rfl, rfl, rfl⟩

/-- Witness for C14: stored Stabilized1 and Braking, the switch still on
Stabilized1 with the GPS-assist flag set and centred sticks. -/
theorem braking_hold_commits_nothing_witness :
    (selectHandler sampleConsts (sampleStatus 1 2)
        (sampleInputs [1] [1] 0 0 0 0)).newPositionRoamState = 2 ∧
    (manualControlTask sampleConsts { flightStatus := sampleStatus 1 2, firstRun := false }
        (sampleInputs [1] [1] 0 0 0 0)).newinit = false ∧
    (manualControlTask sampleConsts { flightStatus := sampleStatus 1 2, firstRun := false }
        (sampleInputs [1] [1] 0 0 0 0)).state =
      { flightStatus := sampleStatus 1 2, firstRun := false } ∧
    (manualControlTask sampleConsts { flightStatus := sampleStatus 1 2, firstRun := false }
        (sampleInputs [1] [1] 0 0 0 0)).invoked =
      some (HandlerFn.pathFollowerHandler, false) :=
  braking_hold_commits_nothing sampleConsts (by decide)
    { flightStatus := sampleStatus 1 2, firstRun := false }
    (sampleInputs [1] [1] 0 0 0 0) rfl (by decide) (by decide) rfl (by decide) rfl rfl

/-- C15. On a cycle that is not the first one, with the switch position at or
beyond the length of the mode table and the stored mode not one of
Stabilized1..6, the resolved mode is the stored mode, nothing is committed,
the state is unchanged, and the call made is the law of the table entry of the
stored mode with `false` (no call where that entry has no law); for the stored
mode Manual it is the manual law. -/
theorem unresolved_position_commits_nothing (K : UAVObjConsts) (hK : K.WellFormed)
    (s : ModuleState) (inp : CycleInputs K)
    (hfirst : s.firstRun = false)
    (hpos : K.FLIGHTMODESETTINGS_FLIGHTMODEPOSITION_NUMELEM ≤ inp.cmd.FlightModeSwitchPosition)
    (hns : ¬ K.isStabilized s.flightStatus.FlightMode) :
    (selectHandler K s.flightStatus inp).newMode = s.flightStatus.FlightMode ∧
    (manualControlTask K s inp).newinit = false ∧
    (manualControlTask K s inp).state = s ∧
    (manualControlTask K s inp).invoked =
      (specDispatchTable K s.flightStatus.FlightMode).handler.map (fun f => (f, false)) ∧
    (s.flightStatus.FlightMode = K.FLIGHTSTATUS_FLIGHTMODE_MANUAL →
      (manualControlTask K s inp).invoked = some (HandlerFn.manualHandler, false)) := by
  have hres := resolveMode_out_of_range K s.flightStatus inp hpos
  have hns2 : ¬ K.isStabilized (resolveMode K s.flightStatus inp) := by
    rw [hres]
    exact hns
  have hm : (selectHandler K s.flightStatus inp).newMode = s.flightStatus.FlightMode := by
    rw [selectHandler_newMode, hres]
  have hr := (selectHandler_carried K s.flightStatus inp hns2).2.1
  have hh : (selectHandler K s.flightStatus inp).handler =
      specDispatchTable K s.flightStatus.FlightMode := by
    rw [selectHandler_eq_table K hK s.flightStatus inp (fun hov => hns2 hov.1), hres]
  rw [manualControlTask_no_commit K s inp hfirst hm hr, hh]
  refine ⟨hm, rfl, rfl, rfl, ?_⟩
  intro hman
  show (specDispatchTable K s.flightStatus.FlightMode).handler.map (fun f => (f, false)) =
    some (HandlerFn.manualHandler, false)
  unfold specDispatchTable
  rw [if_pos hman]
  rfl

/-- Witness for C15: stored Manual with roam state Braking, switch position 6
beyond the six table entries, not the first run. -/
theorem unresolved_position_commits_nothing_witness :
    (manualControlTask sampleConsts { flightStatus := sampleStatus 0 2, firstRun := false }
        (sampleInputs [1, 1, 1, 1, 1, 1] [1] 0 6 1 0)).newinit = false ∧
    (manualControlTask sampleConsts { flightStatus := sampleStatus 0 2, firstRun := false }
        (sampleInputs [1, 1, 1, 1, 1, 1] [1] 0 6 1 0)).state =
      { flightStatus := sampleStatus 0 2, firstRun := false } ∧
    (manualControlTask sampleConsts { flightStatus := sampleStatus 0 2, firstRun := false }
        (sampleInputs [1, 1, 1, 1, 1, 1] [1] 0 6 1 0)).invoked =
      some (HandlerFn.manualHandler, false) :=
  have h := unresolved_position_commits_nothing sampleConsts (by decide)
    { flightStatus := sampleStatus 0 2, firstRun := false }
    (sampleInputs [1, 1, 1, 1, 1, 1] [1] 0 6 1 0) rfl (by decide) (by decide)
  ⟨h.2.1, h.2.2.1, h.2.2.2.2 rfl⟩

/-! ## Fields the commit test does not compare -/

/-- C16, the code at the failing input. Two switch positions map to
Stabilized1, the first with the GPS-assist flag set, the second without. From
startup, a cycle at the first position with centred sticks commits mode
Stabilized1, flag 1, roam state Braking and the path-follower chain. The next
cycle, at the second position, resolves the stored mode and computes the stored
roam state, so nothing is committed; yet the computed flag is 0 against the
stored 1, the stabilized law is called, and its chain (true, false, false) is
not the stored chain (true, true, false). -/
theorem uncompared_fields_left_stale :
    (runCycles sampleConsts (startup (sampleStatus 0 0))
        [sampleInputs [1, 1] [1, 0] 0 0 0 0]).firstRun = false ∧
    (selectHandler sampleConsts
        (runCycles sampleConsts (startup (sampleStatus 0 0))
          [sampleInputs [1, 1] [1, 0] 0 0 0 0]).flightStatus
        (sampleInputs [1, 1] [1, 0] 0 1 0 0)).newMode =
      (runCycles sampleConsts (startup (sampleStatus 0 0))
        [sampleInputs [1, 1] [1, 0] 0 0 0 0]).flightStatus.FlightMode ∧
    (selectHandler sampleConsts
        (runCycles sampleConsts (startup (sampleStatus 0 0))
          [sampleInputs [1, 1] [1, 0] 0 0 0 0]).flightStatus
        (sampleInputs [1, 1] [1, 0] 0 1 0 0)).newPositionRoamState =
      (runCycles sampleConsts (startup (sampleStatus 0 0))
        [sampleInputs [1, 1] [1, 0] 0 0 0 0]).flightStatus.PositionRoamState ∧
    (manualControlTask sampleConsts
        (runCycles sampleConsts (startup (sampleStatus 0 0))
          [sampleInputs [1, 1] [1, 0] 0 0 0 0])
        (sampleInputs [1, 1] [1, 0] 0 1 0 0)).newinit = false ∧
    (selectHandler sampleConsts
        (runCycles sampleConsts (startup (sampleStatus 0 0))
          [sampleInputs [1, 1] [1, 0] 0 0 0 0]).flightStatus
        (sampleInputs [1, 1] [1, 0] 0 1 0 0)).newFlightModeGPSAssist = 0 ∧
    (runCycles sampleConsts (startup (sampleStatus 0 0))
        [sampleInputs [1, 1] [1, 0] 0 0 0 0,
         sampleInputs [1, 1] [1, 0] 0 1 0 0]).flightStatus.FlightModeGPSAssist = 1 ∧
    (manualControlTask sampleConsts
        (runCycles sampleConsts (startup (sampleStatus 0 0))
          [sampleInputs [1, 1] [1, 0] 0 0 0 0])
        (sampleInputs [1, 1] [1, 0] 0 1 0 0)).invoked =
      some (HandlerFn.stabilizedHandler, false) ∧
    (selectHandler sampleConsts
        (runCycles sampleConsts (startup (sampleStatus 0 0))
          [sampleInputs [1, 1] [1, 0] 0 0 0 0]).flightStatus
        (sampleInputs [1, 1] [1, 0] 0 1 0 0)).handler.controlChain =
      { Stabilization := true, PathFollower := false, PathPlanner := false } ∧
    (runCycles sampleConsts (startup (sampleStatus 0 0))
        [sampleInputs [1, 1] [1, 0] 0 0 0 0,
         sampleInputs [1, 1] [1, 0] 0 1 0 0]).flightStatus.ControlChain =
      { Stabilization := true, PathFollower := true, PathPlanner := false } ∧
    (runCycles sampleConsts (startup (sampleStatus 0 0))
        [sampleInputs [1, 1] [1, 0] 0 0 0 0,
         sampleInputs [1, 1] [1, 0] 0 1 0 0]).flightStatus ≠
      computedStatus (selectHandler sampleConsts
        (runCycles sampleConsts (startup (sampleStatus 0 0))
          [sampleInputs [1, 1] [1, 0] 0 0 0 0]).flightStatus
        (sampleInputs [1, 1] [1, 0] 0 1 0 0)) := by
  decide

/-! ## Thrust policy -/

theorem selectHandler_withThrustControl (K : UAVObjConsts) (fs : FlightStatusData)
    (inp : CycleInputs K) (thrustControl : Nat)
    (hno : ¬ (K.isStabilized (resolveMode K fs inp) ∧
      isGPSAssistedFlightMode K inp.FlightModeGPSAssistMap inp.cmd.FlightModeSwitchPosition ≠ 0 ∧
      (inp.cmd.Roll ≠ 0 ∨ inp.cmd.Pitch ≠ 0))) :
    selectHandler K fs (withThrustControl K inp thrustControl) = selectHandler K fs inp := by
  rw [← sticks_deflected_iff] at hno
  have hres : resolveMode K fs (withThrustControl K inp thrustControl) = resolveMode K fs inp :=
    rfl
  unfold selectHandler
  simp only [hres]
  simp only [withThrustControl]
  split_ifs with h1 h2 h3 h4 h5 h6
  all_goals first
    | rfl
    | exact absurd ⟨h2, h3, h4⟩ hno

/-- C17. Two runs of the cycle that differ only in the thrust control setting
give the same selection (resolved mode, computed fields, handler) and the same
result (state after the cycle, `newinit`, call of the law), unless the resolved
mode is one of Stabilized1..6, the GPS-assist flag of the switch position is
set and the roll or the pitch stick is deflected. -/
theorem thrust_policy_read_only_in_roam (K : UAVObjConsts) (s : ModuleState)
    (inp : CycleInputs K) (thrustControl : Nat)
    (hno : ¬ (K.isStabilized (resolveMode K s.flightStatus inp) ∧
      isGPSAssistedFlightMode K inp.FlightModeGPSAssistMap inp.cmd.FlightModeSwitchPosition ≠ 0 ∧
      (inp.cmd.Roll ≠ 0 ∨ inp.cmd.Pitch ≠ 0))) :
    selectHandler K s.flightStatus (withThrustControl K inp thrustControl) =
      selectHandler K s.flightStatus inp ∧
    manualControlTask K s (withThrustControl K inp thrustControl) =
      manualControlTask K s inp := by
  have h := selectHandler_withThrustControl K s.flightStatus inp thrustControl hno
  refine ⟨h, ?_⟩
  unfold manualControlTask
  simp only [h]

/-- Witness for C17: GPS-assisted Stabilized1 with centred sticks, the thrust
control setting changed from 0 (manual) to 1. -/
theorem thrust_policy_read_only_in_roam_witness :
    manualControlTask sampleConsts (startup (sampleStatus 1 1))
        (withThrustControl sampleConsts (sampleInputs [1] [1] 0 0 0 0) 1) =
      manualControlTask sampleConsts (startup (sampleStatus 1 1))
        (sampleInputs [1] [1] 0 0 0 0) :=
  (thrust_policy_read_only_in_roam sampleConsts (startup (sampleStatus 1 1))
    (sampleInputs [1] [1] 0 0 0 0) 1 (by decide)).2

/-! ## Compared fields -/

/-- C18. After every cycle, with or without a commit and on the first run or
a later one, the stored mode is the mode resolved in that cycle and the stored
roam state is the roam state computed in that cycle. -/
theorem compared_fields_in_sync (K : UAVObjConsts) (s : ModuleState) (inp : CycleInputs K) :
    (manualControlTask K s inp).state.flightStatus.FlightMode =
      resolveMode K s.flightStatus inp ∧
    (manualControlTask K s inp).state.flightStatus.FlightMode =
      (selectHandler K s.flightStatus inp).newMode ∧
    (manualControlTask K s inp).state.flightStatus.PositionRoamState =
      (selectHandler K s.flightStatus inp).newPositionRoamState := by
  obtain ⟨-, hm, hr⟩ := manualControlTask_synced K s inp
  exact ⟨hm.trans (selectHandler_newMode K s.flightStatus inp), hm, hr⟩

/-! ## Layered control chains -/

theorem selectHandler_handler_cases (K : UAVObjConsts) (fs : FlightStatusData)
    (inp : CycleInputs K) :
    (selectHandler K fs inp).handler = handler_MANUAL ∨
    (selectHandler K fs inp).handler = handler_STABILIZED ∨
    (selectHandler K fs inp).handler = handler_AUTOTUNE ∨
    (selectHandler K fs inp).handler = handler_PATHFOLLOWER ∨
    (selectHandler K fs inp).handler = handler_PATHPLANNER := by
  unfold selectHandler
  simp only []
  split_ifs
  all_goals first
    | exact Or.inl rfl
    | exact Or.inr (Or.inl rfl)
    | exact Or.inr (Or.inr (Or.inl rfl))
    | exact Or.inr (Or.inr (Or.inr (Or.inl rfl)))
    | exact Or.inr (Or.inr (Or.inr (Or.inr rfl)))

theorem selectHandler_layered (K : UAVObjConsts) (fs : FlightStatusData) (inp : CycleInputs K) :
    Layered (selectHandler K fs inp).handler.controlChain := by
  rcases selectHandler_handler_cases K fs inp with h | h | h | h | h <;> rw [h] <;> decide

theorem manualControlTask_layered (K : UAVObjConsts) (s : ModuleState) (inp : CycleInputs K)
    (h : s.firstRun = true ∨ Layered s.flightStatus.ControlChain) :
    Layered (manualControlTask K s inp).state.flightStatus.ControlChain := by
  unfold manualControlTask
  simp only []
  split_ifs with hc
  · exact selectHandler_layered K s.flightStatus inp
  · simp only [not_or, not_not] at hc
    rcases h with h | h
    · exact absurd h hc.2.1
    · exact h

theorem runCycles_layered (K : UAVObjConsts) (s : ModuleState) (inps : List (CycleInputs K))
    (hne : inps ≠ []) (hs : s.firstRun = true) :
    Layered (runCycles K s inps).flightStatus.ControlChain := by
  induction inps using List.reverseRecOn with
  | nil => exact absurd rfl hne
  | append_singleton l inp ih =>
    rw [runCycles_append]
    apply manualControlTask_layered K
    by_cases hl : l = []
    · left
      rw [hl]
      exact hs
    · right
      exact ih hl

/-- C19. Every control chain the `switch` can select is layered: the path
planner is enabled only with the path follower, and the path follower only
with the stabilization. Hence after every sequence of one or more cycles from
startup the stored control chain is layered. -/
theorem control_chain_layered (K : UAVObjConsts) :
    (∀ (fs : FlightStatusData) (inp : CycleInputs K),
      ((selectHandler K fs inp).handler.controlChain.PathPlanner = true →
        (selectHandler K fs inp).handler.controlChain.PathFollower = true) ∧
      ((selectHandler K fs inp).handler.controlChain.PathFollower = true →
        (selectHandler K fs inp).handler.controlChain.Stabilization = true)) ∧
    (∀ (fs0 : FlightStatusData) (inps : List (CycleInputs K)), inps ≠ [] →
      ((runCycles K (startup fs0) inps).flightStatus.ControlChain.PathPlanner = true →
        (runCycles K (startup fs0) inps).flightStatus.ControlChain.PathFollower = true) ∧
      ((runCycles K (startup fs0) inps).flightStatus.ControlChain.PathFollower = true →
        (runCycles K (startup fs0) inps).flightStatus.ControlChain.Stabilization = true)) :=
  ⟨fun fs inp => selectHandler_layered K fs inp,
   fun fs0 inps hne => runCycles_layered K (startup fs0) inps hne rfl⟩

/-- Witness for C19: from a startup status whose stored chain enables the path
planner alone, one PathPlanner cycle followed by one Autotune cycle leaves a
layered stored chain. -/
theorem control_chain_layered_witness :
    Layered (runCycles sampleConsts
      (startup
        { FlightMode := 0
          FlightModeGPSAssist := 0
          PositionRoamState := 0
          PositionRoamThrustMode := 0
          ControlChain := { Stabilization := false, PathFollower := false, PathPlanner := true } })
      [sampleInputs [14] [] 0 0 0 0, sampleInputs [7] [] 0 0 0 0]).flightStatus.ControlChain :=
  (control_chain_layered sampleConsts).2 _
    [sampleInputs [14] [] 0 0 0 0, sampleInputs [7] [] 0 0 0 0] (by simp)

/-! ## Law selection and roam history -/

theorem selectHandler_same_mode (K : UAVObjConsts) (fs1 fs2 : FlightStatusData)
    (inp : CycleInputs K) (hmode : fs1.FlightMode = fs2.FlightMode) :
    resolveMode K fs1 inp = resolveMode K fs2 inp ∧
    (selectHandler K fs1 inp).handler = (selectHandler K fs2 inp).handler := by
  have hres : resolveMode K fs1 inp = resolveMode K fs2 inp := by
    unfold resolveMode
    simp only [hmode]
  refine ⟨hres, ?_⟩
  unfold selectHandler
  simp only [hres]
  split_ifs <;> rfl

theorem manualControlTask_invoked_law (K : UAVObjConsts) (s : ModuleState) (inp : CycleInputs K) :
    (manualControlTask K s inp).invoked.map Prod.fst =
      (selectHandler K s.flightStatus inp).handler.handler := by
  unfold manualControlTask
  simp only []
  split_ifs <;> cases (selectHandler K s.flightStatus inp).handler.handler <;> rfl

/-- Counterexample to C20: two stored statuses with mode Manual that differ
only in the GPS-assist flag, the same Manual command and configuration, neither
run the first. The handler, `newinit` and the computed roam state agree, yet
the computed GPS-assist flag is 0 in one run and 1 in the other: more than
`newinit` and the computed roam state differs. -/
theorem only_flag_and_roam_differ_counterexample :
    (sampleStatus 0 0).FlightMode =
      ({ sampleStatus 0 0 with FlightModeGPSAssist := 1 } : FlightStatusData).FlightMode ∧
    (selectHandler sampleConsts (sampleStatus 0 0) (sampleInputs [0] [] 0 0 0 0)).handler =
      (selectHandler sampleConsts { sampleStatus 0 0 with FlightModeGPSAssist := 1 }
        (sampleInputs [0] [] 0 0 0 0)).handler ∧
    (manualControlTask sampleConsts { flightStatus := sampleStatus 0 0, firstRun := false }
        (sampleInputs [0] [] 0 0 0 0)).newinit =
      (manualControlTask sampleConsts
        { flightStatus := { sampleStatus 0 0 with FlightModeGPSAssist := 1 }, firstRun := false }
        (sampleInputs [0] [] 0 0 0 0)).newinit ∧
    (selectHandler sampleConsts (sampleStatus 0 0)
        (sampleInputs [0] [] 0 0 0 0)).newPositionRoamState =
      (selectHandler sampleConsts { sampleStatus 0 0 with FlightModeGPSAssist := 1 }
        (sampleInputs [0] [] 0 0 0 0)).newPositionRoamState ∧
    (selectHandler sampleConsts (sampleStatus 0 0)
        (sampleInputs [0] [] 0 0 0 0)).newFlightModeGPSAssist = 0 ∧
    (selectHandler sampleConsts { sampleStatus 0 0 with FlightModeGPSAssist := 1 }
        (sampleInputs [0] [] 0 0 0 0)).newFlightModeGPSAssist = 1 := by
  decide

/-- C20, amended. Two runs of the cycle with the same command and
configuration whose stored statuses agree on the mode, and differ arbitrarily
in the GPS-assist flag, roam state, thrust mode, control chain and first-run
flag, resolve the same mode, select the same handler (law and chain) and call
the same law. Besides `newinit` and the computed roam state, the computed
GPS-assist flag and thrust mode may differ, but only where the cycle carries
them over: the flag is the same in both runs when the resolved mode is one of
Stabilized1..6, and the roam state and thrust mode are the same when moreover
the flag is set and a stick is deflected. -/
theorem law_selection_ignores_roam_history (K : UAVObjConsts) (hK : K.WellFormed)
    (s1 s2 : ModuleState) (inp : CycleInputs K)
    (hmode : s1.flightStatus.FlightMode = s2.flightStatus.FlightMode) :
    (selectHandler K s1.flightStatus inp).newMode =
      (selectHandler K s2.flightStatus inp).newMode ∧
    (selectHandler K s1.flightStatus inp).handler =
      (selectHandler K s2.flightStatus inp).handler ∧
    (manualControlTask K s1 inp).invoked.map Prod.fst =
      (manualControlTask K s2 inp).invoked.map Prod.fst ∧
    (K.isStabilized (resolveMode K s1.flightStatus inp) →
      (selectHandler K s1.flightStatus inp).newFlightModeGPSAssist =
        (selectHandler K s2.flightStatus inp).newFlightModeGPSAssist) ∧
    (K.isStabilized (resolveMode K s1.flightStatus inp) →
      isGPSAssistedFlightMode K inp.FlightModeGPSAssistMap
        inp.cmd.FlightModeSwitchPosition ≠ 0 →
      (inp.cmd.Roll ≠ 0 ∨ inp.cmd.Pitch ≠ 0) →
        (selectHandler K s1.flightStatus inp).newPositionRoamState =
          (selectHandler K s2.flightStatus inp).newPositionRoamState ∧
        (selectHandler K s1.flightStatus inp).newPositionRoamThrustMode =
          (selectHandler K s2.flightStatus inp).newPositionRoamThrustMode) := by
  obtain ⟨hres, hh⟩ := selectHandler_same_mode K s1.flightStatus s2.flightStatus inp hmode
  refine ⟨?_, hh, ?_, ?_, ?_⟩
  · rw [selectHandler_newMode, selectHandler_newMode, hres]
  · rw [manualControlTask_invoked_law, manualControlTask_invoked_law, hh]
  · intro hs
    rw [selectHandler_stabilized K hK s1.flightStatus inp hs,
      selectHandler_stabilized K hK s2.flightStatus inp (hres ▸ hs)]
    split_ifs <;> rfl
  · intro hs hg hd
    have hd2 := (sticks_deflected_iff inp.cmd).mpr hd
    rw [selectHandler_stabilized K hK s1.flightStatus inp hs,
      selectHandler_stabilized K hK s2.flightStatus inp (hres ▸ hs),
      if_pos hg, if_pos hd2, if_pos hg, if_pos hd2]
    exact ⟨rfl, rfl⟩

/-- Witness for the amended C20: GPS-assisted Stabilized1 with centred sticks;
one stored status has roam state None on a first run, the other Braking with a
set flag and the path-follower chain on a later run. Both select the
path-follower handler. -/
theorem law_selection_ignores_roam_history_witness :
    (selectHandler sampleConsts (sampleStatus 1 0) (sampleInputs [1] [1] 0 0 0 0)).handler =
      (selectHandler sampleConsts
        { FlightMode := 1
          FlightModeGPSAssist := 1
          PositionRoamState := 2
          PositionRoamThrustMode := 1
          ControlChain := { Stabilization := true, PathFollower := true, PathPlanner := false } }
        (sampleInputs [1] [1] 0 0 0 0)).handler :=
  (law_selection_ignores_roam_history sampleConsts (by decide) (startup (sampleStatus 1 0))
    { flightStatus :=
        { FlightMode := 1
          FlightModeGPSAssist := 1
          PositionRoamState := 2
          PositionRoamThrustMode := 1
          ControlChain := { Stabilization := true, PathFollower := true, PathPlanner := false } }
      firstRun := false }
    (sampleInputs [1] [1] 0 0 0 0) rfl).2.1

end ManualControl
